import Mathlib

/-!
# Notification delivery and threshold trigger of the computer management API

A shallow embedding of `pkg/notifications/notification.go`
(`httpNotificationClient.SendNotificationWithContext`) together with the
properties of its retry, back-off, cancellation and wire-format behaviour, and of
`pkg/services/computer_service.go` and the two handlers of `pkg/handlers/computer.go`
that report a missing computer, together with the properties of validation, of the
threshold trigger and of error reporting.

The Go function talks to four things outside the repository: the wall clock
(`time.Now`), the context (`ctx.Done`, `ctx.Err`), the request constructor
(`http.NewRequestWithContext`) and the HTTP client (`client.Do`). They are the
fields of `Env`; the function itself is translated statement by statement and
returns, next to its `error` result, the list of requests it issued and of
back-off timers it armed.  Log lines are not modelled.
-/

namespace notifications

/-! ## Data model -/

/-- Notification represents a notification message (`notification.go`, lines 13-19). -/
structure Notification where
  Level : String
  EmployeeAbbreviation : String
  Message : String
  Timestamp : String
deriving DecidableEq, Repr

/-- Go `error` values: a plain message, or `fmt.Errorf("<msg>: %w", cause)`. -/
inductive GoError where
  | text (msg : String)
  | wrap (msg : String) (cause : GoError)
deriving DecidableEq, Repr

/-- The `Error()` string of an error value. -/
def GoError.Error : GoError → String
  | .text msg => msg
  | .wrap msg cause => msg ++ ": " ++ cause.Error

/-- The `errors.Unwrap` of an error value. -/
def GoError.Unwrap : GoError → Option GoError
  | .text _ => none
  | .wrap _ cause => some cause

/-- A JSON object whose members are strings, in emission order. -/
abbrev JsonObject := List (String × String)

/-- Value of a member of a JSON object. -/
def JsonObject.get (o : JsonObject) (key : String) : Option String :=
  (o.find? (fun kv => kv.1 == key)).map (fun kv => kv.2)

/-- The `json.Marshal` of a `Notification`, following its struct tags: the three
first members are always emitted, `timestamp` carries `omitempty`. -/
def jsonMarshal (n : Notification) : JsonObject :=
  [("level", n.Level), ("employeeAbbreviation", n.EmployeeAbbreviation), ("message", n.Message)]
    ++ (if n.Timestamp == "" then [] else [("timestamp", n.Timestamp)])

/-- An outgoing HTTP request. -/
structure Request where
  method : String
  url : String
  header : List (String × String)
  body : JsonObject
deriving DecidableEq, Repr

/-- The `Header.Set`: replaces the values stored under a key. -/
def headerSet (h : List (String × String)) (key value : String) : List (String × String) :=
  h.filter (fun kv => kv.1 != key) ++ [(key, value)]

/-- The `Header.Get`: first value stored under a key. -/
def headerGet (h : List (String × String)) (key : String) : Option String :=
  (h.find? (fun kv => kv.1 == key)).map (fun kv => kv.2)

/-! ## Clock -/

/-- A reading of the wall clock in UTC, as `time.Now().UTC()` returns it. -/
structure Time where
  year : Nat
  month : Nat
  day : Nat
  hour : Nat
  minute : Nat
  second : Nat
deriving DecidableEq, Repr

/-- Decimal digit as a character. -/
def digitChar (d : Nat) : Char := Char.ofNat (48 + d % 10)

/-- Two decimal digits of a number below 100 (Go `utoa2`). -/
def utoa2 (u : Nat) : List Char := [digitChar (u / 10), digitChar u]

/-- Go `appendInt` of the `time` package: at least `width` digits, zero padded. -/
def appendInt (x : Nat) (width : Nat) : List Char :=
  if width = 2 ∧ x < 100 then utoa2 x
  else if width = 4 ∧ x < 10000 then utoa2 (x / 100) ++ utoa2 (x % 100)
  else List.replicate (width - (Nat.repr x).length) (Char.ofNat 48) ++ (Nat.repr x).data

/-- The `Format(time.RFC3339)` of a UTC time: layout `2006-01-02T15:04:05Z07:00`,
whose zone part prints `Z` for UTC. -/
def formatRFC3339 (t : Time) : String :=
  String.mk (appendInt t.year 4 ++ [Char.ofNat 45] ++ appendInt t.month 2 ++ [Char.ofNat 45]
    ++ appendInt t.day 2 ++ [Char.ofNat 84] ++ appendInt t.hour 2 ++ [Char.ofNat 58]
    ++ appendInt t.minute 2 ++ [Char.ofNat 58] ++ appendInt t.second 2 ++ [Char.ofNat 90])

/-! ## Environment of one call -/

/-- The moments of one call at which the cancellation signal of the context can fire:
up to the check that opens loop iteration `k`, while the request of iteration `k`
is outstanding, and during the back-off that follows iteration `k`. -/
inductive Phase where
  | beforeAttempt (k : Nat)
  | inFlight (k : Nat)
  | waiting (k : Nat)
deriving DecidableEq, Repr

/-- What `client.Do` hands back: a response and no error; no response and an error;
or both, which `net/http` does when the redirect policy fails. -/
inductive DoResult where
  | response (status : Int)
  | transportError (err : GoError)
  | redirectError (status : Int) (err : GoError)
deriving DecidableEq, Repr

/-- Everything outside the repository one call depends on. -/
structure Env where
  /-- reading of `time.Now().UTC()` -/
  now : Time
  /-- value of `ctx.Err()` once the context is done -/
  ctxErr : GoError
  /-- whether the cancellation signal fires during a phase -/
  fires : Phase → Bool
  /-- error of `http.NewRequestWithContext` for a target URL, if any -/
  newRequestErr : String → Option GoError
  /-- what the endpoint and the network answer to the request of iteration `k`
  when the context does not abort it -/
  endpoint : Nat → DoResult

/-- The `httpNotificationClient`: only `baseURL` bears on the behaviour modelled
(the `http.Client` is part of `Env.endpoint`). -/
structure Client where
  baseURL : String
deriving DecidableEq, Repr

/-- What a call did to the outside world, in order: `request` is a `client.Do` of the
iteration `attempt`; `wait` is the `select` of lines 108-112 entered after the iteration
`attempt` with a timer of `delay` nanoseconds, which runs to its end unless the context
fires first and ends the call. -/
inductive Event where
  | request (attempt : Nat) (req : Request)
  | wait (attempt : Nat) (delay : Nat)
deriving DecidableEq, Repr

/-! ## The transport -/

/-- Constant `maxRetries` of `SendNotificationWithContext`. -/
def maxRetries : Nat := 3

/-- Go `time.Millisecond`, in nanoseconds. -/
def millisecond : Nat := 1000000

/-- Go `time.Second`, in nanoseconds. -/
def second : Nat := 1000 * millisecond

/-- Constant `baseDelay` of `SendNotificationWithContext`: `1 * time.Second`. -/
def baseDelay : Nat := 1 * second

/-- The `totalDelay` of lines 101-103: `delay + jitter`, in nanoseconds. -/
def totalDelay (attempt : Nat) : Nat :=
  let delay := baseDelay * (1 <<< (attempt - 1))
  let jitter := (attempt * 100) * millisecond
  delay + jitter

/-- The request of lines 75-82 once `http.NewRequestWithContext(ctx, "POST", url, body)`
has succeeded and the two `Header.Set` calls have run. -/
def buildRequest (url : String) (jsonData : JsonObject) : Request :=
  { method := "POST", url := url,
    header := headerSet (headerSet [] "Content-Type" "application/json")
                "User-Agent" "Computer-Management-API/1.0",
    body := jsonData }

/-- The `http.NewRequestWithContext` of line 75 followed by lines 81-82; the method is
a constant and the context is not nil, so only the URL can make it fail. -/
def newRequest (env : Env) (url : String) (jsonData : JsonObject) : Except GoError Request :=
  match env.newRequestErr url with
  | some err => .error err
  | none => .ok (buildRequest url jsonData)

/-- The `c.client.Do(req)` of iteration `attempt`: a context that fires while the
request is outstanding aborts it, and `Do` returns the context error wrapped in a
`url.Error`; otherwise the endpoint answers. The first component tells whether the
context is done afterwards. -/
def clientDo (env : Env) (attempt : Nat) (req : Request) : Bool × DoResult :=
  if env.fires (.inFlight attempt) then
    (true, .transportError (.wrap ("Post \"" ++ req.url ++ "\"") env.ctxErr))
  else (false, env.endpoint attempt)

/-- The test of line 85: `err == nil && resp.StatusCode >= 200 && resp.StatusCode < 300`. -/
def isSuccess : DoResult → Bool
  | .response status => decide (status ≥ 200) && decide (status < 300)
  | .transportError _ => false
  | .redirectError _ _ => false

/-- The `lastErr` of lines 92-97: the status when there is a response, the error otherwise. -/
def failureCause : DoResult → GoError
  | .response status => .text ("HTTP " ++ toString status ++ ": request failed")
  | .redirectError status _ => .text ("HTTP " ++ toString status ++ ": request failed")
  | .transportError err => err

/-- The error returned after the loop (line 118). -/
def exhaustedError (lastErr : Option GoError) : GoError :=
  match lastErr with
  | some cause => .wrap ("notification failed after " ++ toString maxRetries ++ " attempts") cause
  | none => .text ("notification failed after " ++ toString maxRetries ++ " attempts: %!w(<nil>)")

/-- The `for attempt := 1; attempt <= maxRetries; attempt++` loop of lines 68-114 and the
return that follows it. `remaining` counts the iterations still to run: it is
`maxRetries + 1 - attempt`, so the loop guard holds exactly when it is positive. -/
def retryLoop (c : Client) (env : Env) (jsonData : JsonObject) :
    (remaining : Nat) → (attempt : Nat) → (lastErr : Option GoError) →
      Option GoError × List Event
  | 0, _, lastErr => (some (exhaustedError lastErr), [])
  | remaining + 1, attempt, _ =>
    if env.fires (.beforeAttempt attempt) then
      (some (.wrap "notification cancelled" env.ctxErr), [])
    else
      match newRequest env (c.baseURL ++ "/api/notify") jsonData with
      | .error err =>
        retryLoop c env jsonData remaining (attempt + 1)
          (some (.wrap "failed to create request" err))
      | .ok req =>
        let (done, res) := clientDo env attempt req
        if isSuccess res then
          (none, [.request attempt req])
        else
          let lastErr := some (failureCause res)
          if attempt < maxRetries then
            if done || env.fires (.waiting attempt) then
              (some (.wrap "notification cancelled during retry" env.ctxErr),
                [.request attempt req, .wait attempt (totalDelay attempt)])
            else
              let (r, evs) := retryLoop c env jsonData remaining (attempt + 1) lastErr
              (r, .request attempt req :: .wait attempt (totalDelay attempt) :: evs)
          else
            let (r, evs) := retryLoop c env jsonData remaining (attempt + 1) lastErr
            (r, .request attempt req :: evs)

/-- Lines 54-57: add the timestamp if not present. -/
def addTimestamp (env : Env) (notification : Notification) : Notification :=
  if notification.Timestamp == "" then
    { notification with Timestamp := formatRFC3339 env.now }
  else notification

/-- The `SendNotificationWithContext`: the returned `error` (`none` is `nil`) and the
events of the call. `json.Marshal` of a struct of strings does not fail. -/
def SendNotificationWithContext (c : Client) (env : Env) (notification : Notification) :
    Option GoError × List Event :=
  let notification := addTimestamp env notification
  let jsonData := jsonMarshal notification
  retryLoop c env jsonData maxRetries 1 none

/-- Requests issued during a call. -/
def requests : List Event → List Request
  | [] => []
  | .request _ req :: evs => req :: requests evs
  | .wait _ _ :: evs => requests evs

/-- Back-off delays of a call, in nanoseconds. -/
def waits : List Event → List Nat
  | [] => []
  | .request _ _ :: evs => waits evs
  | .wait _ delay :: evs => delay :: waits evs

/-! ## Vocabulary of the specification -/

/-- A failed attempt in the words of the specification: a response whose status is
outside 200-299, or a transport error (with or without a response). -/
def isFailure : DoResult → Bool
  | .response status => decide (status < 200) || decide (299 < status)
  | .transportError _ => true
  | .redirectError _ _ => true

/-- No cancellation signal during loop iteration `k`. -/
def quiet (env : Env) (k : Nat) : Prop :=
  env.fires (.beforeAttempt k) = false ∧ env.fires (.inFlight k) = false ∧
    env.fires (.waiting k) = false

instance (env : Env) (k : Nat) : Decidable (quiet env k) := by
  unfold quiet; infer_instance

/-- A clock reading with a four-digit year and fields in their calendar ranges. -/
def Time.valid (t : Time) : Prop :=
  t.year ≤ 9999 ∧ 1 ≤ t.month ∧ t.month ≤ 12 ∧ 1 ≤ t.day ∧ t.day ≤ 31 ∧
    t.hour ≤ 23 ∧ t.minute ≤ 59 ∧ t.second ≤ 59

instance (t : Time) : Decidable t.valid := by
  unfold Time.valid; infer_instance

/-- Shape of an RFC 3339 date-time in UTC with whole seconds: `dddd-dd-ddTdd:dd:ddZ`. -/
def isRFC3339 (s : String) : Bool :=
  match s.data with
  | [y1, y2, y3, y4, d1, m1, m2, d2, a1, a2, t, h1, h2, c1, n1, n2, c2, s1, s2, z] =>
    [y1, y2, y3, y4, m1, m2, a1, a2, h1, h2, n1, n2, s1, s2].all Char.isDigit
      && d1 == Char.ofNat 45 && d2 == Char.ofNat 45 && t == Char.ofNat 84
      && c1 == Char.ofNat 58 && c2 == Char.ofNat 58 && z == Char.ofNat 90
  | _ => false

/-- The environment in which the endpoint answers `o` to the request of iteration `k`. -/
def Env.withAnswer (env : Env) (k : Nat) (o : DoResult) : Env :=
  { env with endpoint := fun i => if i = k then o else env.endpoint i }

/-- Events of a loop that runs from iteration `attempt` until it is exhausted. -/
def fullTrace (req : Request) : Nat → Nat → List Event
  | 0, _ => []
  | remaining + 1, attempt =>
    if attempt < maxRetries then
      .request attempt req :: .wait attempt (totalDelay attempt)
        :: fullTrace req remaining (attempt + 1)
    else .request attempt req :: fullTrace req remaining (attempt + 1)

/-! ## Sample inputs, after the scenarios of `notification_test.go` -/

/-- Client of the tests. -/
def testClient : Client := { baseURL := "http://127.0.0.1:9090" }

/-- Notification of the tests, without timestamp. -/
def testNotification : Notification :=
  { Level := "warning", EmployeeAbbreviation := "abc", Message := "Test notification",
    Timestamp := "" }

/-- Notification of `TestNotificationClient_PreserveExistingTimestamp`. -/
def stampedNotification : Notification :=
  { testNotification with Timestamp := "2024-01-15T10:30:00Z" }

/-- Server of `TestNotificationClient_SendNotificationRetry`: status 500 twice, then 200;
the context never fires. -/
def retryEnv : Env :=
  { now := ⟨2024, 1, 15, 10, 30, 0⟩,
    ctxErr := .text "context deadline exceeded",
    fires := fun _ => false,
    newRequestErr := fun _ => none,
    endpoint := fun k => if k < 3 then .response 500 else .response 200 }

/-- Server of `TestNotificationClient_SendNotificationMaxRetries`: always status 500. -/
def failingEnv : Env := { retryEnv with endpoint := fun _ => .response 500 }

/-- Context whose deadline expires while the request of iteration `k` is outstanding;
the endpoint answers status 500 whenever it gets to answer. -/
def deadlineInFlightEnv (k : Nat) : Env :=
  { failingEnv with fires := fun p => p == .inFlight k }

/-- Context cancelled during the back-off that follows iteration `k`, status 500 from the
endpoint. -/
def cancelDuringWaitEnv (k : Nat) : Env :=
  { failingEnv with ctxErr := .text "context canceled", fires := fun p => p == .waiting k }

/-- Context found cancelled by the check that opens iteration `k`, status 500 from the
endpoint before that. -/
def cancelBeforeAttemptEnv (k : Nat) : Env :=
  { failingEnv with ctxErr := .text "context canceled", fires := fun p => p == .beforeAttempt k }

/-- A client configured with a base URL without scheme, `:`. -/
def schemelessClient : Client := { baseURL := ":" }

/-- The error of `url.Parse` inside `http.NewRequestWithContext` for a URL without scheme. -/
def missingScheme (url : String) : GoError :=
  .wrap ("parse \"" ++ url ++ "\"") (.text "missing protocol scheme")

/-- Environment of a call whose request cannot be built: `http.NewRequestWithContext`
returns the error of `url.Parse`; the context never fires. -/
def unbuildableEnv : Env :=
  { failingEnv with newRequestErr := fun url => some (missingScheme url) }

/-- Environment of a call whose request cannot be built and whose context is found
cancelled by the check that opens iteration `k`. -/
def unbuildableCancelledEnv (k : Nat) : Env :=
  { unbuildableEnv with
    ctxErr := .text "context canceled", fires := fun p => p == .beforeAttempt k }

/-- The `SendNotification` of the HTTP client: `SendNotificationWithContext` with
`context.Background()`, a context that never fires. -/
def SendNotification (c : Client) (env : Env) (notification : Notification) :
    Option GoError × List Event :=
  SendNotificationWithContext c { env with fires := fun _ => false } notification

/-- The `NotificationClient` interface as the service uses it, for a client whose state is
of type `κ`: `SendNotification` on a notification returns an error (`none` is `nil`) and
leaves the client in a new state. -/
structure NotificationClient (κ : Type) where
  SendNotification : κ → Notification → Option GoError × κ

/-- The HTTP client as a `NotificationClient`; its state is the list of the events of the
calls made so far. -/
def httpNotificationClient (c : Client) (env : Env) : NotificationClient (List Event) :=
  { SendNotification := fun sent notification =>
      ((SendNotification c env notification).1, sent ++ (SendNotification c env notification).2) }

end notifications

/-! # Models: `pkg/models/models.go` -/

namespace models

open notifications (GoError)

/-- Computer represents a company-issued computer. `ID` is a Go `uint`; a nil
`EmployeeAbbreviation` is `none`. The two time stamps the store maintains are left out. -/
structure Computer where
  ID : Nat
  MACAddress : String
  ComputerName : String
  IPAddress : String
  EmployeeAbbreviation : Option String
  Description : String
deriving DecidableEq, Repr

/-- A call of a method of `ComputerRepository`, with its arguments. -/
inductive RepoCall where
  | Create (computer : Computer)
  | GetByID (id : Nat)
  | Update (computer : Computer)
  | Delete (id : Nat)
  | CountByEmployee (abbr : String)
deriving DecidableEq, Repr

/-- The `ComputerRepository` interface over a store of type `σ`, for the methods the
mutations use. A query answers from the store and leaves it as it is; `Create`, `Update`
and `Delete` return the store they leave behind, and `Create` the `ID` it wrote through
the pointer. Counts are Go `int64` values. -/
structure ComputerRepository (σ : Type) where
  Create : σ → Computer → Except GoError Nat × σ
  GetByID : σ → Nat → Except GoError Computer
  Update : σ → Computer → Option GoError × σ
  Delete : σ → Nat → Option GoError × σ
  CountByEmployee : σ → String → Except GoError Int

end models

/-! # Service: `pkg/services/computer_service.go` -/

namespace services

open notifications (GoError Notification NotificationClient)
open models

/-- Go `int64` addition result: the integer brought back into `[-2^63, 2^63)`. -/
def wrapInt64 (x : Int) : Int :=
  (x + 9223372036854775808) % 18446744073709551616 - 9223372036854775808

/-- The `unicode.ToLower` of a rune: `A`-`Z` move to `a`-`z`, the other ASCII runes stay,
and the runes above ASCII go through the case table of package `unicode`, `table`. -/
def toLowerRune (table : Char → Char) (r : Char) : Char :=
  if r.toNat ≤ 127 then
    if 65 ≤ r.toNat ∧ r.toNat ≤ 90 then Char.ofNat (r.toNat + 32) else r
  else table r

/-- The `strings.ToLower` of a string of valid UTF-8: every rune mapped by `unicode.ToLower`. -/
def ToLower (table : Char → Char) (s : String) : String :=
  String.mk (s.data.map (toLowerRune table))

/-- The `computerService` struct. `unicodeLower` is not a field of the Go struct: it is the
case table of package `unicode` for the runes above ASCII, which `strings.ToLower` reads. -/
structure computerService (σ κ : Type) where
  repo : ComputerRepository σ
  notifyClient : NotificationClient κ
  unicodeLower : Char → Char

/-- What a method of the service did: the `error` it returned (`none` is `nil`), the store
it left, its repository calls in order, the notifications its goroutines passed to
`notifyClient.SendNotification`, the lines printed with `fmt.Printf`, and the state in
which the notification client is left. A goroutine started with `go` reads neither the
store nor the returned error, so its effects are listed with those of the call that
started it. -/
structure Result (σ κ : Type) where
  err : Option GoError
  store : σ
  calls : List RepoCall
  dispatched : List Notification
  printed : List String
  client : κ

/-- The `validateEmployeeAbbreviation` (lines 186-194); `len` counts bytes. -/
def validateEmployeeAbbreviation {σ κ : Type} (s : computerService σ κ) (abbr : String) :
    Option GoError :=
  if abbr.utf8ByteSize ≠ 3 then
    some (.text "employee abbreviation must be exactly 3 characters")
  else if abbr ≠ ToLower s.unicodeLower abbr then
    some (.text "employee abbreviation must be lowercase")
  else none

/-- The `validateComputer` (lines 159-183). -/
def validateComputer {σ κ : Type} (s : computerService σ κ) (computer : Computer) :
    Option GoError :=
  if computer.MACAddress = "" then some (.text "MAC address is required")
  else if computer.ComputerName = "" then some (.text "computer name is required")
  else if computer.IPAddress = "" then some (.text "IP address is required")
  else if computer.MACAddress.utf8ByteSize ≠ 17 then
    some (.text "MAC address must be 17 characters long (XX:XX:XX:XX:XX:XX)")
  else
    match computer.EmployeeAbbreviation with
    | some abbr => if abbr ≠ "" then validateEmployeeAbbreviation s abbr else none
    | none => none

/-- The `sendComputerLimitNotification` (lines 197-207), run on a client in state `k`: the
notification passed to `notifyClient.SendNotification`, the line printed when the client
returns an error, and the state the client is left in. `count` is a Go `int`, 64 bits
wide. -/
def sendComputerLimitNotification {σ κ : Type} (s : computerService σ κ) (k : κ)
    (employeeAbbr : String) (count : Int) : Notification × List String × κ :=
  let notification : Notification :=
    { Level := "warning",
      EmployeeAbbreviation := employeeAbbr,
      Message := "Employee " ++ employeeAbbr ++ " has been assigned " ++ toString count
        ++ " computers",
      Timestamp := "" }
  match s.notifyClient.SendNotification k notification with
  | (some err, k1) =>
    (notification,
      ["Failed to send notification for employee " ++ employeeAbbr ++ ": " ++ err.Error ++ "\n"],
      k1)
  | (none, k1) => (notification, [], k1)

/-- The `go s.sendComputerLimitNotification(...)` of lines 50 and 132, added to what the
call has done so far. -/
def startNotification {σ κ : Type} (s : computerService σ κ) (done : Result σ κ)
    (employeeAbbr : String) (count : Int) : Result σ κ :=
  { done with
    dispatched := done.dispatched
      ++ [(sendComputerLimitNotification s done.client employeeAbbr count).1],
    printed := done.printed
      ++ (sendComputerLimitNotification s done.client employeeAbbr count).2.1,
    client := (sendComputerLimitNotification s done.client employeeAbbr count).2.2 }

/-- The `CreateComputer` (lines 25-55), on a store `st` and a client in state `k`. -/
def CreateComputer {σ κ : Type} (s : computerService σ κ) (st : σ) (k : κ)
    (computer : Computer) : Result σ κ :=
  match validateComputer s computer with
  | some err =>
    { err := some err, store := st, calls := [], dispatched := [], printed := [],
      client := k }
  | none =>
    let counted : Except GoError Int × List RepoCall :=
      match computer.EmployeeAbbreviation with
      | some abbr =>
        if abbr ≠ "" then (s.repo.CountByEmployee st abbr, [.CountByEmployee abbr])
        else (.ok 0, [])
      | none => (.ok 0, [])
    match counted with
    | (.error err, calls) =>
      { err := some (.wrap "failed to count employee computers" err), store := st,
        calls := calls, dispatched := [], printed := [], client := k }
    | (.ok currentCount, calls) =>
      match s.repo.Create st computer with
      | (.error err, st1) =>
        { err := some (.wrap "failed to create computer" err), store := st1,
          calls := calls ++ [.Create computer], dispatched := [], printed := [],
          client := k }
      | (.ok _, st1) =>
        let created : Result σ κ :=
          { err := none, store := st1, calls := calls ++ [.Create computer],
            dispatched := [], printed := [], client := k }
        match computer.EmployeeAbbreviation with
        | some abbr =>
          if abbr ≠ "" then
            let newCount := wrapInt64 (currentCount + 1)
            if newCount ≥ 3 then startNotification s created abbr newCount else created
          else created
        | none => created

/-- The `UpdateComputer` (lines 93-137), on a store `st` and a client in state `k`. -/
def UpdateComputer {σ κ : Type} (s : computerService σ κ) (st : σ) (k : κ)
    (computer : Computer) : Result σ κ :=
  if computer.ID = 0 then
    { err := some (.text "invalid computer ID"), store := st, calls := [], dispatched := [],
      printed := [], client := k }
  else
    match s.repo.GetByID st computer.ID with
    | .error err =>
      { err := some (.wrap "computer not found" err), store := st,
        calls := [.GetByID computer.ID], dispatched := [], printed := [], client := k }
    | .ok existingComputer =>
      match validateComputer s computer with
      | some err =>
        { err := some err, store := st, calls := [.GetByID computer.ID], dispatched := [],
          printed := [], client := k }
      | none =>
        let oldEmployee := existingComputer.EmployeeAbbreviation.getD ""
        let newEmployee := computer.EmployeeAbbreviation.getD ""
        match s.repo.Update st computer with
        | (some err, st1) =>
          { err := some (.wrap "failed to update computer" err), store := st1,
            calls := [.GetByID computer.ID, .Update computer], dispatched := [],
            printed := [], client := k }
        | (none, st1) =>
          if oldEmployee ≠ newEmployee ∧ newEmployee ≠ "" then
            match s.repo.CountByEmployee st1 newEmployee with
            | .error err =>
              { err := none, store := st1,
                calls := [.GetByID computer.ID, .Update computer, .CountByEmployee newEmployee],
                dispatched := [],
                printed := ["Warning: failed to count computers for employee " ++ newEmployee
                  ++ ": " ++ err.Error ++ "\n"],
                client := k }
            | .ok count =>
              let updated : Result σ κ :=
                { err := none, store := st1,
                  calls := [.GetByID computer.ID, .Update computer,
                    .CountByEmployee newEmployee],
                  dispatched := [], printed := [], client := k }
              if count ≥ 3 then startNotification s updated newEmployee count else updated
          else
            { err := none, store := st1, calls := [.GetByID computer.ID, .Update computer],
              dispatched := [], printed := [], client := k }

/-- The `DeleteComputer` (lines 140-156). -/
def DeleteComputer {σ κ : Type} (s : computerService σ κ) (st : σ) (k : κ) (id : Nat) :
    Result σ κ :=
  if id = 0 then
    { err := some (.text "invalid computer ID"), store := st, calls := [], dispatched := [],
      printed := [], client := k }
  else
    match s.repo.GetByID st id with
    | .error err =>
      { err := some (.wrap "computer not found" err), store := st, calls := [.GetByID id],
        dispatched := [], printed := [], client := k }
    | .ok _ =>
      match s.repo.Delete st id with
      | (some err, st1) =>
        { err := some (.wrap "failed to delete computer" err), store := st1,
          calls := [.GetByID id, .Delete id], dispatched := [], printed := [], client := k }
      | (none, st1) =>
        { err := none, store := st1, calls := [.GetByID id, .Delete id], dispatched := [],
          printed := [], client := k }

/-! ## Test doubles of `computer_service_test.go` -/

/-- The `mockComputerRepository` of the tests: its maps and its counter. -/
structure mockComputerRepository where
  computers : Nat → Option Computer
  nextID : Nat
  countMap : String → Int

/-- The `newMockRepository`: empty maps, next identifier 1. -/
def newMockRepository : mockComputerRepository :=
  { computers := fun _ => none, nextID := 1, countMap := fun _ => 0 }

/-- The methods of `mockComputerRepository` (test file, lines 28-84). `nextID` is a Go
`uint` and the counts are `int64`. -/
def mockRepository : ComputerRepository mockComputerRepository :=
  { Create := fun m computer =>
      let stored : Computer := { computer with ID := m.nextID }
      (.ok m.nextID,
        { computers := fun id => if id = m.nextID then some stored else m.computers id,
          nextID := (m.nextID + 1) % 18446744073709551616,
          countMap :=
            match computer.EmployeeAbbreviation with
            | some abbr =>
              fun key => if key = abbr then wrapInt64 (m.countMap key + 1) else m.countMap key
            | none => m.countMap }),
    GetByID := fun m id =>
      match m.computers id with
      | some computer => .ok computer
      | none => .error (.text "computer not found"),
    Update := fun m computer =>
      match m.computers computer.ID with
      | some _ =>
        (none, { m with computers := fun id =>
          if id = computer.ID then some computer else m.computers id })
      | none => (some (.text "computer not found"), m),
    Delete := fun m id =>
      match m.computers id with
      | some _ => (none, { m with computers := fun i => if i = id then none else m.computers i })
      | none => (some (.text "computer not found"), m),
    CountByEmployee := fun m abbr => .ok (m.countMap abbr) }

/-- The `mockNotificationClient` of the tests: the notifications it received and whether
it is set to fail. -/
structure mockNotificationClient where
  notifications : List Notification
  shouldFail : Bool
deriving DecidableEq, Repr

/-- The methods of `mockNotificationClient` (test file, lines 92-102): an error when
`shouldFail` is set, otherwise the notification is appended to `notifications`. -/
def mockClient : NotificationClient mockNotificationClient :=
  { SendNotification := fun m notification =>
      if m.shouldFail then (some (.text "mock notification failed"), m)
      else (none, { m with notifications := m.notifications ++ [notification] }) }

/-- The `&mockNotificationClient{}` of the tests: nothing received, not set to fail. -/
def newMockClient : mockNotificationClient := { notifications := [], shouldFail := false }

/-- The case table of package `unicode` on the capital letters of the Latin-1, Greek and
Cyrillic blocks (U+00C0-U+00DE without U+00D7, U+0391-U+03AB without U+03A2,
U+0400-U+042F). The other runes are left alone, which is what the table of package
`unicode` does for the runes that are not upper case; the samples hold no upper-case rune
outside these blocks. -/
def caseTable (r : Char) : Char :=
  if 192 ≤ r.toNat ∧ r.toNat ≤ 222 ∧ r.toNat ≠ 215 then Char.ofNat (r.toNat + 32)
  else if 913 ≤ r.toNat ∧ r.toNat ≤ 939 ∧ r.toNat ≠ 930 then Char.ofNat (r.toNat + 32)
  else if 1040 ≤ r.toNat ∧ r.toNat ≤ 1071 then Char.ofNat (r.toNat + 32)
  else if 1024 ≤ r.toNat ∧ r.toNat ≤ 1039 then Char.ofNat (r.toNat + 80)
  else r

/-- The service of the tests: mock repository, mock client. -/
def testService : computerService mockComputerRepository mockNotificationClient :=
  { repo := mockRepository, notifyClient := mockClient, unicodeLower := caseTable }

/-- A repository whose count query fails, the other methods being those of the mock. -/
def countFailingRepository : ComputerRepository mockComputerRepository :=
  { mockRepository with
    CountByEmployee := fun _ _ => .error (.text "database is locked") }

/-- A table of computers with the counter of its identifiers: the rows, and the last
identifier handed out. -/
structure computerTable where
  rows : List Computer
  sequence : Nat
deriving DecidableEq, Repr

/-- A store that keeps the computers as the rows of a table and answers the queries of
`repository.go` from them: insertion under the next identifier of the counter, lookup by
`ID`, `Save` of a row, count of the rows of an owner. Sample store of the examples; the
constraints of the schema are not part of it. -/
def tableRepository : ComputerRepository computerTable :=
  { Create := fun table computer =>
      let id := if computer.ID = 0 then table.sequence + 1 else computer.ID
      (.ok id, { rows := table.rows ++ [{ computer with ID := id }],
                 sequence := max table.sequence id }),
    GetByID := fun table id =>
      match table.rows.find? (fun row => row.ID == id) with
      | some row => .ok row
      | none => .error (.text "record not found"),
    Update := fun table computer =>
      if table.rows.any (fun row => row.ID == computer.ID) then
        (none,
          { rows := table.rows.map (fun row => if row.ID == computer.ID then computer else row),
            sequence := table.sequence })
      else
        (none, { rows := table.rows ++ [computer],
                 sequence := max table.sequence computer.ID }),
    Delete := fun table id =>
      (none, { table with rows := table.rows.filter (fun row => row.ID != id) }),
    CountByEmployee := fun table abbr =>
      .ok ((table.rows.filter (fun row => row.EmployeeAbbreviation == some abbr)).length : Int) }

/-- The store and the client a list of `CreateComputer` calls leaves, each call made on the
store and the client the one before left. -/
def stateAfter {σ κ : Type} (s : computerService σ κ) : σ → κ → List Computer → σ × κ
  | st, k, [] => (st, k)
  | st, k, computer :: rest =>
    stateAfter s (CreateComputer s st k computer).store (CreateComputer s st k computer).client
      rest

/-- Number of the calls of a list of `CreateComputer` calls that were made for the owner
`abbr` and returned `nil`. -/
def createdFor {σ κ : Type} (s : computerService σ κ) (abbr : String) :
    σ → κ → List Computer → Nat
  | _, _, [] => 0
  | st, k, computer :: rest =>
    (if computer.EmployeeAbbreviation = some abbr ∧ (CreateComputer s st k computer).err = none
      then 1 else 0)
      + createdFor s abbr (CreateComputer s st k computer).store
          (CreateComputer s st k computer).client rest

/-- The notification of `sendComputerLimitNotification` for an owner and a count. -/
def limitNotification (employeeAbbr : String) (count : Int) : Notification :=
  { Level := "warning", EmployeeAbbreviation := employeeAbbr,
    Message := "Employee " ++ employeeAbbr ++ " has been assigned " ++ toString count
      ++ " computers",
    Timestamp := "" }

/-- Computer of the tests, for an owner. -/
def testComputer (abbr : Option String) : Computer :=
  { ID := 0, MACAddress := "00:11:22:33:44:55", ComputerName := "Test Computer",
    IPAddress := "192.168.1.100", EmployeeAbbreviation := abbr,
    Description := "Test description" }

/-- The `i`-th computer of `TestCreateComputerNotificationTrigger`, for an owner: MAC
address `00:11:22:33:44:%02d`, name `Test Computer %d`, IP address `192.168.1.%d`. -/
def numberedComputer (i : Nat) (abbr : Option String) : Computer :=
  { ID := 0,
    MACAddress := "00:11:22:33:44:" ++ (if i < 10 then "0" else "") ++ toString i,
    ComputerName := "Test Computer " ++ toString i,
    IPAddress := "192.168.1." ++ toString i,
    EmployeeAbbreviation := abbr,
    Description := "Test description" }

/-- The store of the tests after one computer of owner `abc` was created: it holds
computer 1. -/
def storeWithComputer : mockComputerRepository :=
  (mockRepository.Create newMockRepository (testComputer (some "abc"))).2

/-- The service of the tests over the repository whose count query fails. -/
def countFailingService : computerService mockComputerRepository mockNotificationClient :=
  { testService with repo := countFailingRepository }

/-- The service of the tests over a repository whose `Create` fails. -/
def createFailingService : computerService mockComputerRepository mockNotificationClient :=
  { testService with
    repo := { mockRepository with
      Create := fun m _ => (.error (.text "UNIQUE constraint failed: computers.mac_address"), m) } }

/-- A service over the table store, with the mock client. -/
def tableService : computerService computerTable mockNotificationClient :=
  { repo := tableRepository, notifyClient := mockClient, unicodeLower := caseTable }

/-- A table in which owner `aaa` holds computer 1 and owner `bbb` computers 2 and 3. -/
def sampleTable : computerTable :=
  { rows := [{ numberedComputer 1 (some "aaa") with ID := 1 },
             { numberedComputer 2 (some "bbb") with ID := 2 },
             { numberedComputer 3 (some "bbb") with ID := 3 }],
    sequence := 3 }

end services

/-! # Handlers: `pkg/handlers/computer.go` -/

namespace handlers

open notifications (GoError)
open models services

/-- What a handler writes as body: an error message, a computer, or a message. -/
inductive Payload where
  | error (message : String)
  | computer (computer : Computer)
  | message (text : String)
deriving DecidableEq, Repr

/-- The status code and the body written by a handler. -/
structure Response where
  statusCode : Nat
  payload : Payload
deriving DecidableEq, Repr

/-- The `ComputerHandler` with the service of `computer_service.go` behind it. -/
structure ComputerHandler (σ κ : Type) where
  service : computerService σ κ

/-- The `strconv.ParseUint(idStr, 10, 32)`: decimal digits only, at least one, value below
`2^32`; `none` is an error. -/
def ParseUint32 (idStr : String) : Option Nat :=
  if idStr.data = [] then none
  else if idStr.data.all Char.isDigit then
    let value := idStr.data.foldl (fun acc digit => acc * 10 + (digit.toNat - 48)) 0
    if value < 4294967296 then some value else none
  else none

/-- The `UpdateComputer` handler, PUT /computers/{id} (lines 87-115): `idStr` is the path
variable, `body` the computer decoded from the request body, `none` when decoding fails. -/
def UpdateComputer {σ κ : Type} (h : ComputerHandler σ κ) (st : σ) (k : κ) (idStr : String)
    (body : Option Computer) : Response × σ :=
  match ParseUint32 idStr with
  | none => ({ statusCode := 400, payload := .error "Invalid computer ID" }, st)
  | some id =>
    match body with
    | none => ({ statusCode := 400, payload := .error "Invalid JSON format" }, st)
    | some decoded =>
      let computer : Computer := { decoded with ID := id }
      let result := services.UpdateComputer h.service st k computer
      match result.err with
      | some err =>
        if err.Error = "computer not found" then
          ({ statusCode := 404, payload := .error err.Error }, result.store)
        else ({ statusCode := 400, payload := .error err.Error }, result.store)
      | none => ({ statusCode := 200, payload := .computer computer }, result.store)

/-- The `DeleteComputer` handler, DELETE /computers/{id} (lines 118-140). -/
def DeleteComputer {σ κ : Type} (h : ComputerHandler σ κ) (st : σ) (k : κ)
    (idStr : String) : Response × σ :=
  match ParseUint32 idStr with
  | none => ({ statusCode := 400, payload := .error "Invalid computer ID" }, st)
  | some id =>
    let result := services.DeleteComputer h.service st k id
    match result.err with
    | some err =>
      if err.Error = "computer not found" then
        ({ statusCode := 404, payload := .error err.Error }, result.store)
      else ({ statusCode := 500, payload := .error "Failed to delete computer" }, result.store)
    | none => ({ statusCode := 200, payload := .message "Computer deleted successfully" },
        result.store)

end handlers

/-! # Properties of the notification transport -/

namespace notifications

/-! ## One iteration of the loop -/

variable {c : Client} (env : Env) {j : JsonObject} {r a : Nat} {l : Option GoError}

theorem retryLoop_zero : retryLoop c env j 0 a l = (some (exhaustedError l), []) := by
  simp [retryLoop]

theorem retryLoop_cancelled (h : env.fires (.beforeAttempt a) = true) :
    retryLoop c env j (r + 1) a l = (some (.wrap "notification cancelled" env.ctxErr), []) := by
  simp [retryLoop, h]

theorem retryLoop_noRequest {err : GoError} (hb : env.fires (.beforeAttempt a) = false)
    (hu : env.newRequestErr (c.baseURL ++ "/api/notify") = some err) :
    retryLoop c env j (r + 1) a l
      = retryLoop c env j r (a + 1) (some (.wrap "failed to create request" err)) := by
  simp [retryLoop, hb, newRequest, hu]

theorem retryLoop_success (hb : env.fires (.beforeAttempt a) = false)
    (hu : env.newRequestErr (c.baseURL ++ "/api/notify") = none)
    (hf : env.fires (.inFlight a) = false) (hs : isSuccess (env.endpoint a) = true) :
    retryLoop c env j (r + 1) a l
      = (none, [.request a (buildRequest (c.baseURL ++ "/api/notify") j)]) := by
  simp [retryLoop, hb, newRequest, hu, clientDo, hf, hs]

theorem retryLoop_failure_wait (hb : env.fires (.beforeAttempt a) = false)
    (hu : env.newRequestErr (c.baseURL ++ "/api/notify") = none)
    (hf : env.fires (.inFlight a) = false) (hs : isSuccess (env.endpoint a) = false)
    (ha : a < maxRetries) (hw : env.fires (.waiting a) = false) :
    retryLoop c env j (r + 1) a l
      = ((retryLoop c env j r (a + 1) (some (failureCause (env.endpoint a)))).1,
          .request a (buildRequest (c.baseURL ++ "/api/notify") j)
            :: .wait a (totalDelay a)
            :: (retryLoop c env j r (a + 1) (some (failureCause (env.endpoint a)))).2) := by
  simp [retryLoop, hb, newRequest, hu, clientDo, hf, hs, ha, hw]

theorem retryLoop_failure_cancelled (hb : env.fires (.beforeAttempt a) = false)
    (hu : env.newRequestErr (c.baseURL ++ "/api/notify") = none)
    (hf : env.fires (.inFlight a) = false) (hs : isSuccess (env.endpoint a) = false)
    (ha : a < maxRetries) (hw : env.fires (.waiting a) = true) :
    retryLoop c env j (r + 1) a l
      = (some (.wrap "notification cancelled during retry" env.ctxErr),
          [.request a (buildRequest (c.baseURL ++ "/api/notify") j), .wait a (totalDelay a)]) := by
  simp [retryLoop, hb, newRequest, hu, clientDo, hf, hs, ha, hw]

theorem retryLoop_failure_last (hb : env.fires (.beforeAttempt a) = false)
    (hu : env.newRequestErr (c.baseURL ++ "/api/notify") = none)
    (hf : env.fires (.inFlight a) = false) (hs : isSuccess (env.endpoint a) = false)
    (ha : ¬ a < maxRetries) :
    retryLoop c env j (r + 1) a l
      = ((retryLoop c env j r (a + 1) (some (failureCause (env.endpoint a)))).1,
          .request a (buildRequest (c.baseURL ++ "/api/notify") j)
            :: (retryLoop c env j r (a + 1) (some (failureCause (env.endpoint a)))).2) := by
  simp [retryLoop, hb, newRequest, hu, clientDo, hf, hs, ha]

theorem retryLoop_aborted_wait (hb : env.fires (.beforeAttempt a) = false)
    (hu : env.newRequestErr (c.baseURL ++ "/api/notify") = none)
    (hf : env.fires (.inFlight a) = true) (ha : a < maxRetries) :
    retryLoop c env j (r + 1) a l
      = (some (.wrap "notification cancelled during retry" env.ctxErr),
          [.request a (buildRequest (c.baseURL ++ "/api/notify") j), .wait a (totalDelay a)]) := by
  simp [retryLoop, hb, newRequest, hu, clientDo, hf, ha, isSuccess]

theorem retryLoop_aborted_last (hb : env.fires (.beforeAttempt a) = false)
    (hu : env.newRequestErr (c.baseURL ++ "/api/notify") = none)
    (hf : env.fires (.inFlight a) = true) (ha : ¬ a < maxRetries) :
    retryLoop c env j (r + 1) a l
      = ((retryLoop c env j r (a + 1) (some (.wrap ("Post \"" ++ (c.baseURL ++ "/api/notify") ++ "\"") env.ctxErr))).1,
          .request a (buildRequest (c.baseURL ++ "/api/notify") j)
            :: (retryLoop c env j r (a + 1) (some (.wrap ("Post \"" ++ (c.baseURL ++ "/api/notify") ++ "\"") env.ctxErr))).2) := by
  simp [retryLoop, hb, newRequest, hu, clientDo, hf, ha, isSuccess, failureCause, buildRequest]

/-! ## Retry, exhaustion -/

theorem isSuccess_false_of_isFailure {o : DoResult} (h : isFailure o = true) :
    isSuccess o = false := by
  cases o with
  | response s =>
    simp only [isFailure, Bool.or_eq_true, decide_eq_true_eq] at h
    simp only [isSuccess, Bool.and_eq_false_iff, decide_eq_false_iff_not]
    omega
  | transportError e => rfl
  | redirectError s e => rfl

theorem isSuccess_response {s : Int} (h : 200 ≤ s ∧ s ≤ 299) :
    isSuccess (.response s) = true := by
  simp only [isSuccess, Bool.and_eq_true, decide_eq_true_eq]
  omega

/-- C1: when the context never fires and the endpoint fails the first `N - 1` attempts
(response outside 200-299 or transport error) and answers the `N`-th one with a status in
200-299, for `N` in 1..3, the call issues exactly `N` requests and returns `nil`. -/
theorem send_succeeds_on_nth_attempt (c : Client) (env : Env) (n : Notification)
    (N : Nat) (s : Int) (hN1 : 1 ≤ N) (hN3 : N ≤ 3)
    (hctx : ∀ p, env.fires p = false)
    (hurl : env.newRequestErr (c.baseURL ++ "/api/notify") = none)
    (hfail : ∀ k, 1 ≤ k → k < N → isFailure (env.endpoint k) = true)
    (hok : env.endpoint N = .response s) (hs : 200 ≤ s ∧ s ≤ 299) :
    (SendNotificationWithContext c env n).1 = none ∧
      (requests (SendNotificationWithContext c env n).2).length = N := by
  have hsucc : isSuccess (env.endpoint N) = true := by rw [hok]; exact isSuccess_response hs
  have h1 : 1 < N → isSuccess (env.endpoint 1) = false := fun h =>
    isSuccess_false_of_isFailure (hfail 1 (by omega) h)
  have h2 : 2 < N → isSuccess (env.endpoint 2) = false := fun h =>
    isSuccess_false_of_isFailure (hfail 2 (by omega) h)
  unfold SendNotificationWithContext
  simp only [maxRetries]
  interval_cases N
  · rw [retryLoop_success _ (hctx _) hurl (hctx _) hsucc]
    simp [requests]
  · rw [retryLoop_failure_wait _ (hctx _) hurl (hctx _) (h1 (by omega)) (by decide) (hctx _),
      retryLoop_success _ (hctx _) hurl (hctx _) hsucc]
    simp [requests]
  · rw [retryLoop_failure_wait _ (hctx _) hurl (hctx _) (h1 (by omega)) (by decide) (hctx _),
      retryLoop_failure_wait _ (hctx _) hurl (hctx _) (h2 (by omega)) (by decide) (hctx _),
      retryLoop_success _ (hctx _) hurl (hctx _) hsucc]
    simp [requests]

/-- Witness of C1 on the retry test: two 500 answers, then 200. -/
theorem send_succeeds_on_nth_attempt_witness :
    (SendNotificationWithContext testClient retryEnv testNotification).1 = none ∧
      (requests (SendNotificationWithContext testClient retryEnv testNotification).2).length
        = 3 :=
  send_succeeds_on_nth_attempt testClient retryEnv testNotification 3 200
    (by decide) (by decide) (fun _ => rfl) rfl
    (fun k h1 h3 => by
      have : k = 1 ∨ k = 2 := by omega
      rcases this with rfl | rfl <;> rfl)
    rfl (by decide)

/-- C2 as stated fails when the request cannot be built: with the base URL `:` and a
context that never fires, each of the three attempts fails, the call returns
`notification failed after 3 attempts`, and it has issued no request at all; the cause
wrapped is `failed to create request`, neither a status nor a transport error. -/
theorem exhausted_without_any_request :
    (SendNotificationWithContext schemelessClient unbuildableEnv testNotification).1
      = some (.wrap "notification failed after 3 attempts"
          (.wrap "failed to create request"
            (.wrap "parse \":/api/notify\"" (.text "missing protocol scheme")))) ∧
    requests (SendNotificationWithContext schemelessClient unbuildableEnv testNotification).2
      = [] ∧
    (∀ p, unbuildableEnv.fires p = false) :=
  ⟨by decide, by decide, fun _ => rfl⟩

/-- C2, as the code has it: when the context never fires and each of the three attempts
fails, the call returns the error `notification failed after 3 attempts` wrapping the cause
of the third failure. When the request can be built and the three answers are failures
(status outside 200-299 or transport error), exactly three requests are issued and the cause
is `HTTP <status>: request failed` when a response came back, the transport error when none
did. When `http.NewRequestWithContext` fails, no request is issued and the cause is
`failed to create request` wrapping its error. -/
theorem send_exhausted_after_three_failures (c : Client) (env : Env) (n : Notification)
    (hctx : ∀ p, env.fires p = false) :
    (env.newRequestErr (c.baseURL ++ "/api/notify") = none →
      (∀ k, 1 ≤ k → k ≤ 3 → isFailure (env.endpoint k) = true) →
      (requests (SendNotificationWithContext c env n).2).length = 3 ∧
      ∃ cause : GoError,
        (SendNotificationWithContext c env n).1
            = some (.wrap "notification failed after 3 attempts" cause) ∧
        (∀ e, (SendNotificationWithContext c env n).1 = some e →
            e.Error = "notification failed after 3 attempts: " ++ cause.Error ∧
            e.Unwrap = some cause) ∧
        (∀ s, env.endpoint 3 = .response s →
            cause = .text ("HTTP " ++ toString s ++ ": request failed")) ∧
        (∀ s err, env.endpoint 3 = .redirectError s err → (s < 200 ∨ 299 < s) →
            cause = .text ("HTTP " ++ toString s ++ ": request failed")) ∧
        (∀ err, env.endpoint 3 = .transportError err → cause = err)) ∧
    (∀ err, env.newRequestErr (c.baseURL ++ "/api/notify") = some err →
      requests (SendNotificationWithContext c env n).2 = [] ∧
      (SendNotificationWithContext c env n).1
        = some (.wrap "notification failed after 3 attempts"
            (.wrap "failed to create request" err)) ∧
      (∀ e, (SendNotificationWithContext c env n).1 = some e →
        e.Error = "notification failed after 3 attempts: failed to create request: "
          ++ err.Error)) := by
  constructor
  · intro hurl hfail
    have h1 := isSuccess_false_of_isFailure (hfail 1 (by omega) (by omega))
    have h2 := isSuccess_false_of_isFailure (hfail 2 (by omega) (by omega))
    have h3 := isSuccess_false_of_isFailure (hfail 3 (by omega) (by omega))
    have hrun : SendNotificationWithContext c env n
        = (some (.wrap "notification failed after 3 attempts" (failureCause (env.endpoint 3))),
            [.request 1 (buildRequest (c.baseURL ++ "/api/notify") (jsonMarshal (addTimestamp env n))),
             .wait 1 (totalDelay 1),
             .request 2 (buildRequest (c.baseURL ++ "/api/notify") (jsonMarshal (addTimestamp env n))),
             .wait 2 (totalDelay 2),
             .request 3 (buildRequest (c.baseURL ++ "/api/notify") (jsonMarshal (addTimestamp env n)))]) := by
      unfold SendNotificationWithContext
      simp only [maxRetries]
      rw [retryLoop_failure_wait _ (hctx _) hurl (hctx _) h1 (by decide) (hctx _),
        retryLoop_failure_wait _ (hctx _) hurl (hctx _) h2 (by decide) (hctx _),
        retryLoop_failure_last _ (hctx _) hurl (hctx _) h3 (by decide), retryLoop_zero _]
      rfl
    rw [hrun]
    refine ⟨by simp [requests], failureCause (env.endpoint 3), rfl, ?_, ?_, ?_, ?_⟩
    · intro e he
      cases he
      exact ⟨rfl, rfl⟩
    · intro s hs; rw [hs]; rfl
    · intro s err hs _; rw [hs]; rfl
    · intro err hs; rw [hs]; rfl
  · intro err hu
    have hrun : SendNotificationWithContext c env n
        = (some (.wrap "notification failed after 3 attempts"
            (.wrap "failed to create request" err)), []) := by
      unfold SendNotificationWithContext
      simp only [maxRetries]
      rw [retryLoop_noRequest _ (hctx _) hu, retryLoop_noRequest _ (hctx _) hu,
        retryLoop_noRequest _ (hctx _) hu, retryLoop_zero]
      rfl
    rw [hrun]
    refine ⟨rfl, rfl, ?_⟩
    intro e he
    cases he
    simp only [GoError.Error, String.append_assoc]
    rw [← String.append_assoc]
    rfl

/-- Witness of C2 on the max-retries test, status 500 on every attempt, and on a base URL
without scheme. -/
theorem send_exhausted_after_three_failures_witness :
    ((requests (SendNotificationWithContext testClient failingEnv testNotification).2).length
        = 3 ∧
      (SendNotificationWithContext testClient failingEnv testNotification).1
        = some (.wrap "notification failed after 3 attempts"
            (.text "HTTP 500: request failed"))) ∧
    (SendNotificationWithContext schemelessClient unbuildableEnv testNotification).1
      = some (.wrap "notification failed after 3 attempts"
          (.wrap "failed to create request" (missingScheme ":/api/notify"))) := by
  obtain ⟨hlen, cause, hres, _, hresp, _, _⟩ :=
    (send_exhausted_after_three_failures testClient failingEnv testNotification
      (fun _ => rfl)).1 rfl (fun _ _ _ => rfl)
  refine ⟨⟨hlen, ?_⟩, ?_⟩
  · rw [hres, hresp 500 rfl]
    rfl
  · exact ((send_exhausted_after_three_failures schemelessClient unbuildableEnv
      testNotification (fun _ => rfl)).2 (missingScheme ":/api/notify") rfl).2.1

/-! ## Shape of the event sequence -/

theorem retryLoop_noRequest_trace {c : Client} {env : Env} {j : JsonObject} {err : GoError}
    (hu : env.newRequestErr (c.baseURL ++ "/api/notify") = some err) :
    ∀ (r a : Nat) (l : Option GoError), (retryLoop c env j r a l).2 = [] := by
  intro r
  induction r with
  | zero => intro a l; rw [retryLoop_zero _]
  | succ r ih =>
    intro a l
    cases hb : env.fires (.beforeAttempt a) with
    | true => rw [retryLoop_cancelled _ hb]
    | false => rw [retryLoop_noRequest _ hb hu]; exact ih _ _

theorem retryLoop_trace_initial {c : Client} {env : Env} {j : JsonObject}
    (hu : env.newRequestErr (c.baseURL ++ "/api/notify") = none) :
    ∀ (r a : Nat) (l : Option GoError),
      (retryLoop c env j r a l).2
        <+: fullTrace (buildRequest (c.baseURL ++ "/api/notify") j) r a := by
  intro r
  induction r with
  | zero => intro a l; rw [retryLoop_zero env]; exact List.nil_prefix
  | succ r ih =>
    intro a l
    cases hb : env.fires (.beforeAttempt a) with
    | true => rw [retryLoop_cancelled _ hb]; exact List.nil_prefix
    | false =>
      by_cases ha : a < maxRetries
      · cases hf : env.fires (.inFlight a) with
        | true =>
          rw [retryLoop_aborted_wait _ hb hu hf ha]
          simp [fullTrace, ha]
        | false =>
          cases hs : isSuccess (env.endpoint a) with
          | true =>
            rw [retryLoop_success _ hb hu hf hs]
            simp [fullTrace, ha]
          | false =>
            cases hw : env.fires (.waiting a) with
            | true =>
              rw [retryLoop_failure_cancelled _ hb hu hf hs ha hw]
              simp [fullTrace, ha]
            | false =>
              rw [retryLoop_failure_wait _ hb hu hf hs ha hw]
              simp only [fullTrace, ha, if_true, List.cons_prefix_cons, true_and]
              exact ih _ _
      · cases hf : env.fires (.inFlight a) with
        | true =>
          rw [retryLoop_aborted_last _ hb hu hf ha]
          simp only [fullTrace, ha, if_false, List.cons_prefix_cons, true_and]
          exact ih _ _
        | false =>
          cases hs : isSuccess (env.endpoint a) with
          | true =>
            rw [retryLoop_success _ hb hu hf hs]
            simp [fullTrace, ha]
          | false =>
            rw [retryLoop_failure_last _ hb hu hf hs ha]
            simp only [fullTrace, ha, if_false, List.cons_prefix_cons, true_and]
            exact ih _ _

/-- When `http.NewRequestWithContext` fails and the context never fires, the three
iterations follow one another without request or wait, and the call returns the exhaustion
error wrapping `failed to create request`. -/
theorem send_without_request (c : Client) (env : Env) (n : Notification) (err : GoError)
    (hctx : ∀ p, env.fires p = false)
    (hu : env.newRequestErr (c.baseURL ++ "/api/notify") = some err) :
    SendNotificationWithContext c env n
      = (some (.wrap "notification failed after 3 attempts"
          (.wrap "failed to create request" err)), []) := by
  unfold SendNotificationWithContext
  simp only [maxRetries]
  rw [retryLoop_noRequest _ (hctx _) hu, retryLoop_noRequest _ (hctx _) hu,
    retryLoop_noRequest _ (hctx _) hu, retryLoop_zero]
  rfl

theorem requests_append (xs ys : List Event) :
    requests (xs ++ ys) = requests xs ++ requests ys := by
  induction xs with
  | nil => rfl
  | cons e xs ih => cases e <;> simp [requests, ih]

theorem waits_append (xs ys : List Event) : waits (xs ++ ys) = waits xs ++ waits ys := by
  induction xs with
  | nil => rfl
  | cons e xs ih => cases e <;> simp [waits, ih]

theorem getElem?_of_isInitial {α : Type} {xs ys : List α} (h : xs <+: ys) {i : Nat} {d : α}
    (hi : xs[i]? = some d) : ys[i]? = some d := by
  obtain ⟨t, rfl⟩ := h
  have hlt : i < xs.length := by
    by_contra hge
    rw [List.getElem?_eq_none (by omega)] at hi
    cases hi
  rw [List.getElem?_append_left hlt]
  exact hi

/-- The events of a call are an initial part of: request, 1.1 s, request, 2.2 s, request. -/
theorem send_trace_initial (c : Client) (env : Env) (n : Notification) :
    (SendNotificationWithContext c env n).2 <+:
      [.request 1 (buildRequest (c.baseURL ++ "/api/notify") (jsonMarshal (addTimestamp env n))),
       .wait 1 (1100 * millisecond),
       .request 2 (buildRequest (c.baseURL ++ "/api/notify") (jsonMarshal (addTimestamp env n))),
       .wait 2 (2200 * millisecond),
       .request 3 (buildRequest (c.baseURL ++ "/api/notify") (jsonMarshal (addTimestamp env n)))] := by
  unfold SendNotificationWithContext
  cases hu : env.newRequestErr (c.baseURL ++ "/api/notify") with
  | some err => simp only [retryLoop_noRequest_trace hu]; exact List.nil_prefix
  | none => exact retryLoop_trace_initial hu maxRetries 1 none

/-- C4: whatever the endpoint and the cancellation signal do, a call ends having issued
at most 3 requests and armed at most 2 back-off waits. -/
theorem send_at_most_three_requests_two_waits (c : Client) (env : Env) (n : Notification) :
    (requests (SendNotificationWithContext c env n).2).length ≤ 3 ∧
      (waits (SendNotificationWithContext c env n).2).length ≤ 2 := by
  obtain ⟨t, ht⟩ := send_trace_initial c env n
  have hr := congrArg (fun evs => (requests evs).length) ht
  have hw := congrArg (fun evs => (waits evs).length) ht
  simp only [requests_append, waits_append, List.length_append, requests, waits,
    List.length_cons, List.length_nil] at hr hw
  omega

/-- C5 as stated fails when the request cannot be built: with the base URL `:` the first
iteration goes on to the second and the second to the third with no event in between, and
the call returns `notification failed after 3 attempts` without having waited. -/
theorem retries_without_wait :
    retryLoop schemelessClient unbuildableEnv [] 3 1 none
      = retryLoop schemelessClient unbuildableEnv [] 2 2
          (some (.wrap "failed to create request" (missingScheme ":/api/notify"))) ∧
    retryLoop schemelessClient unbuildableEnv [] 2 2
        (some (.wrap "failed to create request" (missingScheme ":/api/notify")))
      = retryLoop schemelessClient unbuildableEnv [] 1 3
          (some (.wrap "failed to create request" (missingScheme ":/api/notify"))) ∧
    waits (SendNotificationWithContext schemelessClient unbuildableEnv testNotification).2
      = [] ∧
    (SendNotificationWithContext schemelessClient unbuildableEnv testNotification).1
      = some (.wrap "notification failed after 3 attempts"
          (.wrap "failed to create request" (missingScheme ":/api/notify"))) := by
  decide

/-- C5, as the code has it. The events of every call form an initial part of the schedule
request, wait 1100 ms, request, wait 2200 ms, request: no wait precedes the first request,
none follows the third, the second and third requests come after the waits of 1100 ms and
2200 ms; the wait after the failed attempt `a` (1 or 2) is
`baseDelay * 2 ^ (a - 1) + a * 100 ms` with `baseDelay` one second, and any two calls wait
the same time at the same position. An attempt before the last whose request went out and
failed is followed by its wait, and a call whose three requests fail without cancellation
runs the whole schedule. An attempt whose request cannot be built is followed by the next
attempt at once: such a call issues no request and waits for nothing. -/
theorem backoff_schedule (c : Client) (env : Env) (n : Notification) :
    (SendNotificationWithContext c env n).2 <+:
      [.request 1 (buildRequest (c.baseURL ++ "/api/notify") (jsonMarshal (addTimestamp env n))),
       .wait 1 (1100 * millisecond),
       .request 2 (buildRequest (c.baseURL ++ "/api/notify") (jsonMarshal (addTimestamp env n))),
       .wait 2 (2200 * millisecond),
       .request 3 (buildRequest (c.baseURL ++ "/api/notify") (jsonMarshal (addTimestamp env n)))] ∧
    waits (SendNotificationWithContext c env n).2 <+: [1100 * millisecond, 2200 * millisecond] ∧
    (∀ a : Nat, 1 ≤ a → a < maxRetries →
      totalDelay a = baseDelay * 2 ^ (a - 1) + a * (100 * millisecond)) ∧
    baseDelay = 1000 * millisecond ∧
    totalDelay 1 = 1100 * millisecond ∧ totalDelay 2 = 2200 * millisecond ∧
    (∀ (c2 : Client) (env2 : Env) (n2 : Notification) (i d d2 : Nat),
      (waits (SendNotificationWithContext c env n).2)[i]? = some d →
      (waits (SendNotificationWithContext c2 env2 n2).2)[i]? = some d2 → d = d2) ∧
    (∀ (j : JsonObject) (r a : Nat) (l : Option GoError), a < maxRetries →
      env.fires (.beforeAttempt a) = false →
      env.newRequestErr (c.baseURL ++ "/api/notify") = none →
      env.fires (.inFlight a) = false → isFailure (env.endpoint a) = true →
      ∃ rest, (retryLoop c env j (r + 1) a l).2
        = .request a (buildRequest (c.baseURL ++ "/api/notify") j)
            :: .wait a (totalDelay a) :: rest) ∧
    (env.newRequestErr (c.baseURL ++ "/api/notify") = none → (∀ p, env.fires p = false) →
      (∀ k, 1 ≤ k → k ≤ 3 → isFailure (env.endpoint k) = true) →
      (SendNotificationWithContext c env n).2
        = [.request 1 (buildRequest (c.baseURL ++ "/api/notify") (jsonMarshal (addTimestamp env n))),
           .wait 1 (1100 * millisecond),
           .request 2 (buildRequest (c.baseURL ++ "/api/notify") (jsonMarshal (addTimestamp env n))),
           .wait 2 (2200 * millisecond),
           .request 3 (buildRequest (c.baseURL ++ "/api/notify") (jsonMarshal (addTimestamp env n)))]) ∧
    (∀ err, env.newRequestErr (c.baseURL ++ "/api/notify") = some err →
      (SendNotificationWithContext c env n).2 = [] ∧
      (∀ (j : JsonObject) (r a : Nat) (l : Option GoError),
        env.fires (.beforeAttempt a) = false →
        retryLoop c env j (r + 1) a l
          = retryLoop c env j r (a + 1) (some (.wrap "failed to create request" err)))) := by
  have hw : ∀ (c : Client) (env : Env) (n : Notification),
      waits (SendNotificationWithContext c env n).2
        <+: [1100 * millisecond, 2200 * millisecond] := by
    intro c env n
    obtain ⟨t, ht⟩ := send_trace_initial c env n
    refine ⟨waits t, ?_⟩
    have := congrArg waits ht
    simpa [waits_append, waits] using this
  refine ⟨send_trace_initial c env n, hw c env n, ?_, rfl, rfl, rfl, ?_, ?_, ?_, ?_⟩
  · intro a _ _
    simp only [totalDelay, Nat.shiftLeft_eq, Nat.one_mul, Nat.mul_assoc]
  · intro c2 env2 n2 i d d2 h1 h2
    have e1 := getElem?_of_isInitial (hw c env n) h1
    have e2 := getElem?_of_isInitial (hw c2 env2 n2) h2
    rw [e1] at e2
    exact Option.some.inj e2
  · intro j r a l ha hb hu hf he
    have hs := isSuccess_false_of_isFailure he
    cases hwait : env.fires (.waiting a) with
    | true =>
      rw [retryLoop_failure_cancelled _ hb hu hf hs ha hwait]
      exact ⟨[], rfl⟩
    | false =>
      rw [retryLoop_failure_wait _ hb hu hf hs ha hwait]
      exact ⟨_, rfl⟩
  · intro hurl hctx hfail
    have h1 := isSuccess_false_of_isFailure (hfail 1 (by omega) (by omega))
    have h2 := isSuccess_false_of_isFailure (hfail 2 (by omega) (by omega))
    have h3 := isSuccess_false_of_isFailure (hfail 3 (by omega) (by omega))
    unfold SendNotificationWithContext
    simp only [maxRetries]
    rw [retryLoop_failure_wait _ (hctx _) hurl (hctx _) h1 (by decide) (hctx _),
      retryLoop_failure_wait _ (hctx _) hurl (hctx _) h2 (by decide) (hctx _),
      retryLoop_failure_last _ (hctx _) hurl (hctx _) h3 (by decide), retryLoop_zero _]
    rfl
  · intro err hu
    refine ⟨?_, ?_⟩
    · unfold SendNotificationWithContext
      exact retryLoop_noRequest_trace hu _ _ _
    · intro j r a l hb
      exact retryLoop_noRequest _ hb hu

/-- Witness of C5: three answers with status 500 run the whole schedule. -/
theorem backoff_schedule_witness :
    waits (SendNotificationWithContext testClient failingEnv testNotification).2
      = [1100 * millisecond, 2200 * millisecond] := by
  have h := (backoff_schedule testClient failingEnv testNotification).2.2.2.2.2.2.2.2.1 rfl
    (fun _ => rfl) (fun _ _ _ => rfl)
  rw [h]
  rfl

/-- C6: a deadline that expires while the third request is outstanding, after two answers
with status 500, makes the call return the exhaustion error `notification failed after 3
attempts`, whereas the same deadline expiring during the first or the second request makes
it return `notification cancelled during retry`. -/
theorem deadline_during_third_attempt_reported_as_exhausted :
    (SendNotificationWithContext testClient (deadlineInFlightEnv 3) testNotification).1
      = some (.wrap "notification failed after 3 attempts"
          (.wrap "Post \"http://127.0.0.1:9090/api/notify\""
            (.text "context deadline exceeded"))) ∧
    (requests (SendNotificationWithContext testClient (deadlineInFlightEnv 3)
      testNotification).2).length = 3 ∧
    (SendNotificationWithContext testClient (deadlineInFlightEnv 2) testNotification).1
      = some (.wrap "notification cancelled during retry" (.text "context deadline exceeded")) ∧
    (SendNotificationWithContext testClient (deadlineInFlightEnv 1) testNotification).1
      = some (.wrap "notification cancelled during retry" (.text "context deadline exceeded")) := by
  decide

/-! ## Cancellation and wire format -/

theorem digitChar_isDigit (d : Nat) : (digitChar d).isDigit = true := by
  have h : d % 10 < 10 := Nat.mod_lt _ (by decide)
  unfold digitChar
  generalize d % 10 = m at h
  interval_cases m <;> decide

theorem formatRFC3339_ne_empty (t : Time) : formatRFC3339 t ≠ "" := by
  intro h
  have := congrArg String.data h
  simp [formatRFC3339] at this

theorem formatRFC3339_shape (t : Time) (h : t.valid) : isRFC3339 (formatRFC3339 t) = true := by
  obtain ⟨hy, _, hm, _, hd, hh, hn, hs⟩ := h
  have e4 : appendInt t.year 4 = utoa2 (t.year / 100) ++ utoa2 (t.year % 100) := by
    simp [appendInt]; omega
  have e2 : ∀ x, x ≤ 59 → appendInt x 2 = utoa2 x := by
    intro x hx
    simp [appendInt]; omega
  simp [formatRFC3339, isRFC3339, e4, e2 t.month (by omega), e2 t.day (by omega),
    e2 t.hour (by omega), e2 t.minute hn, e2 t.second hs, utoa2, digitChar_isDigit]

theorem addTimestamp_ne_empty (env : Env) (n : Notification) :
    (addTimestamp env n).Timestamp ≠ "" := by
  unfold addTimestamp
  by_cases h : n.Timestamp = ""
  · simp [h, formatRFC3339_ne_empty]
  · simp [h]

theorem addTimestamp_eq (env : Env) (n : Notification) :
    addTimestamp env n
      = { n with Timestamp := if n.Timestamp = "" then formatRFC3339 env.now else n.Timestamp } := by
  unfold addTimestamp
  by_cases h : n.Timestamp = "" <;> simp [h]

theorem jsonMarshal_of_timestamp (n : Notification) (h : n.Timestamp ≠ "") :
    jsonMarshal n
      = [("level", n.Level), ("employeeAbbreviation", n.EmployeeAbbreviation),
          ("message", n.Message), ("timestamp", n.Timestamp)] := by
  simp [jsonMarshal, h]

theorem request_mem_send {c : Client} {env : Env} {n : Notification} {k : Nat}
    {req : Request} (h : Event.request k req ∈ (SendNotificationWithContext c env n).2) :
    req = buildRequest (c.baseURL ++ "/api/notify") (jsonMarshal (addTimestamp env n)) := by
  obtain ⟨t, ht⟩ := send_trace_initial c env n
  have hm : Event.request k req ∈ (SendNotificationWithContext c env n).2 ++ t :=
    List.mem_append_left _ h
  rw [ht] at hm
  simp only [List.mem_cons, Event.request.injEq, List.mem_singleton, reduceCtorEq, false_or,
    List.not_mem_nil, or_false] at hm
  rcases hm with h | h | h <;> exact h.2

/-- C7 as stated fails when the request cannot be built: with the base URL `:` and a signal
found fired by the check that opens attempt 2, or attempt 3, the call returns
`notification cancelled` after no request at all, not after 1 or 2. -/
theorem cancelled_after_no_request :
    (SendNotificationWithContext schemelessClient (unbuildableCancelledEnv 2)
        testNotification).1
      = some (.wrap "notification cancelled" (.text "context canceled")) ∧
    requests (SendNotificationWithContext schemelessClient (unbuildableCancelledEnv 2)
        testNotification).2 = [] ∧
    (unbuildableCancelledEnv 2).fires (.beforeAttempt 1) = false ∧
    (SendNotificationWithContext schemelessClient (unbuildableCancelledEnv 3)
        testNotification).1
      = some (.wrap "notification cancelled" (.text "context canceled")) ∧
    requests (SendNotificationWithContext schemelessClient (unbuildableCancelledEnv 3)
        testNotification).2 = [] := by
  decide

/-- C7, as the code has it: a signal already fired when the call starts gives
`notification cancelled` with no request; when the signal is found fired by the check that
opens attempt `k` (`k` = 1, 2, 3) and not before, no request is issued for attempt `k` and
the call returns `notification cancelled`, after exactly `k - 1` requests when the first
`k - 1` attempts were issued and failed, and after no request at all when the requests
cannot be built; and when it fires during the wait that follows the failed attempt `k`
(`k` = 1, 2), the call returns `notification cancelled during retry` after exactly `k`
requests, fewer than 3. -/
theorem cancellation_seen_at_both_check_points (c : Client) (env : Env) (n : Notification) :
    (env.fires (.beforeAttempt 1) = true →
      (SendNotificationWithContext c env n).1
          = some (.wrap "notification cancelled" env.ctxErr) ∧
        requests (SendNotificationWithContext c env n).2 = []) ∧
    (∀ k : Nat, 1 ≤ k → k ≤ 3 →
      env.newRequestErr (c.baseURL ++ "/api/notify") = none →
      (∀ i, 1 ≤ i → i < k → quiet env i ∧ isFailure (env.endpoint i) = true) →
      env.fires (.beforeAttempt k) = true →
      (SendNotificationWithContext c env n).1
          = some (.wrap "notification cancelled" env.ctxErr) ∧
        (requests (SendNotificationWithContext c env n).2).length = k - 1) ∧
    (∀ k : Nat, 1 ≤ k → k ≤ 2 →
      env.newRequestErr (c.baseURL ++ "/api/notify") = none →
      (∀ i, 1 ≤ i → i < k → quiet env i ∧ isFailure (env.endpoint i) = true) →
      env.fires (.beforeAttempt k) = false → env.fires (.inFlight k) = false →
      isFailure (env.endpoint k) = true →
      env.fires (.waiting k) = true →
      (SendNotificationWithContext c env n).1
          = some (.wrap "notification cancelled during retry" env.ctxErr) ∧
        (requests (SendNotificationWithContext c env n).2).length = k ∧ k < 3) ∧
    (∀ (k : Nat) (err : GoError), 1 ≤ k → k ≤ 3 →
      env.newRequestErr (c.baseURL ++ "/api/notify") = some err →
      (∀ i, 1 ≤ i → i < k → env.fires (.beforeAttempt i) = false) →
      env.fires (.beforeAttempt k) = true →
      (SendNotificationWithContext c env n).1
          = some (.wrap "notification cancelled" env.ctxErr) ∧
        requests (SendNotificationWithContext c env n).2 = []) := by
  refine ⟨?_, ?_, ?_, ?_⟩
  · intro h
    unfold SendNotificationWithContext
    simp only [maxRetries]
    rw [retryLoop_cancelled _ h]
    exact ⟨rfl, rfl⟩
  · intro k hk1 hk3 hu hq hb
    have q1 : 1 < k → _ := fun h => hq 1 (by omega) h
    have q2 : 2 < k → _ := fun h => hq 2 (by omega) h
    unfold SendNotificationWithContext
    simp only [maxRetries]
    interval_cases k
    · rw [retryLoop_cancelled _ hb]
      exact ⟨rfl, rfl⟩
    · obtain ⟨⟨b1, f1, w1⟩, e1⟩ := q1 (by omega)
      rw [retryLoop_failure_wait _ b1 hu f1 (isSuccess_false_of_isFailure e1) (by decide) w1,
        retryLoop_cancelled _ hb]
      exact ⟨rfl, rfl⟩
    · obtain ⟨⟨b1, f1, w1⟩, e1⟩ := q1 (by omega)
      obtain ⟨⟨b2, f2, w2⟩, e2⟩ := q2 (by omega)
      rw [retryLoop_failure_wait _ b1 hu f1 (isSuccess_false_of_isFailure e1) (by decide) w1,
        retryLoop_failure_wait _ b2 hu f2 (isSuccess_false_of_isFailure e2) (by decide) w2,
        retryLoop_cancelled _ hb]
      exact ⟨rfl, rfl⟩
  · intro k hk1 hk2 hu hq hb hf he hw
    have q1 : 1 < k → _ := fun h => hq 1 (by omega) h
    unfold SendNotificationWithContext
    simp only [maxRetries]
    interval_cases k
    · rw [retryLoop_failure_cancelled _ hb hu hf (isSuccess_false_of_isFailure he)
        (by decide) hw]
      exact ⟨rfl, rfl, by decide⟩
    · obtain ⟨⟨b1, f1, w1⟩, e1⟩ := q1 (by omega)
      rw [retryLoop_failure_wait _ b1 hu f1 (isSuccess_false_of_isFailure e1) (by decide) w1,
        retryLoop_failure_cancelled _ hb hu hf (isSuccess_false_of_isFailure he)
          (by decide) hw]
      exact ⟨rfl, rfl, by decide⟩
  · intro k err hk1 hk3 hu hq hb
    have q1 : 1 < k → _ := fun h => hq 1 (by omega) h
    have q2 : 2 < k → _ := fun h => hq 2 (by omega) h
    unfold SendNotificationWithContext
    simp only [maxRetries]
    interval_cases k
    · rw [retryLoop_cancelled _ hb]
      exact ⟨rfl, rfl⟩
    · rw [retryLoop_noRequest _ (q1 (by omega)) hu, retryLoop_cancelled _ hb]
      exact ⟨rfl, rfl⟩
    · rw [retryLoop_noRequest _ (q1 (by omega)) hu, retryLoop_noRequest _ (q2 (by omega)) hu,
        retryLoop_cancelled _ hb]
      exact ⟨rfl, rfl⟩

/-- Witness of C7: a signal found fired before the third attempt, and a signal fired
during the wait that follows the second attempt, both after answers with status 500. -/
theorem cancellation_seen_at_both_check_points_witness :
    ((SendNotificationWithContext testClient (cancelBeforeAttemptEnv 3) testNotification).1
        = some (.wrap "notification cancelled" (.text "context canceled")) ∧
      (requests (SendNotificationWithContext testClient (cancelBeforeAttemptEnv 3)
        testNotification).2).length = 2) ∧
    ((SendNotificationWithContext testClient (cancelDuringWaitEnv 2) testNotification).1
        = some (.wrap "notification cancelled during retry" (.text "context canceled")) ∧
      (requests (SendNotificationWithContext testClient (cancelDuringWaitEnv 2)
        testNotification).2).length = 2 ∧ 2 < 3) :=
  ⟨(cancellation_seen_at_both_check_points testClient (cancelBeforeAttemptEnv 3)
      testNotification).2.1 3 (by decide) (by decide) rfl
      (fun i h1 h3 => by
        have : i = 1 ∨ i = 2 := by omega
        rcases this with rfl | rfl <;> decide)
      rfl,
   (cancellation_seen_at_both_check_points testClient (cancelDuringWaitEnv 2)
      testNotification).2.2.1 2 (by decide) (by decide) rfl
      (fun i h1 h2 => by
        have : i = 1 := by omega
        subst this; decide)
      rfl rfl rfl rfl⟩

/-- C8: for a notification passed without timestamp, the timestamp sent is the RFC 3339
rendering of the clock read once at the start of the call: it is not empty, it has the
RFC 3339 shape for a calendar reading of the clock, every request of the call (attempts 1,
2 and 3 alike) carries it, and all requests of the call have the same body. -/
theorem timestamp_assigned_once (c : Client) (env : Env) (n : Notification)
    (hts : n.Timestamp = "") :
    formatRFC3339 env.now ≠ "" ∧
    (env.now.valid → isRFC3339 (formatRFC3339 env.now) = true) ∧
    (∀ (k : Nat) (req : Request),
      Event.request k req ∈ (SendNotificationWithContext c env n).2 →
      JsonObject.get req.body "timestamp" = some (formatRFC3339 env.now) ∧
        req.body = jsonMarshal { n with Timestamp := formatRFC3339 env.now }) ∧
    (∀ (k1 k2 : Nat) (r1 r2 : Request),
      Event.request k1 r1 ∈ (SendNotificationWithContext c env n).2 →
      Event.request k2 r2 ∈ (SendNotificationWithContext c env n).2 →
      r1.body = r2.body) := by
  refine ⟨formatRFC3339_ne_empty _, formatRFC3339_shape _, ?_, ?_⟩
  · intro k req h
    rw [request_mem_send h, addTimestamp_eq]
    simp [buildRequest, jsonMarshal, JsonObject.get, hts, formatRFC3339_ne_empty]
  · intro k1 k2 r1 r2 h1 h2
    rw [request_mem_send h1, request_mem_send h2]

/-- Witness of C8 on the retry test: the three requests carry `2024-01-15T10:30:00Z`. -/
theorem timestamp_assigned_once_witness :
    (requests (SendNotificationWithContext testClient retryEnv testNotification).2).map
        (fun r => JsonObject.get r.body "timestamp")
      = [some "2024-01-15T10:30:00Z", some "2024-01-15T10:30:00Z",
          some "2024-01-15T10:30:00Z"] ∧
    isRFC3339 (formatRFC3339 retryEnv.now) = true :=
  ⟨by decide,
    (timestamp_assigned_once testClient retryEnv testNotification rfl).2.1 (by decide)⟩

/-- C9: a timestamp passed by the caller is the one every request of the call carries, and
in every case the level, the employee abbreviation and the message sent are those the
caller passed. -/
theorem caller_fields_sent_unchanged (c : Client) (env : Env) (n : Notification) :
    (n.Timestamp ≠ "" → ∀ (k : Nat) (req : Request),
      Event.request k req ∈ (SendNotificationWithContext c env n).2 →
      JsonObject.get req.body "timestamp" = some n.Timestamp) ∧
    (∀ (k : Nat) (req : Request),
      Event.request k req ∈ (SendNotificationWithContext c env n).2 →
      JsonObject.get req.body "level" = some n.Level ∧
      JsonObject.get req.body "employeeAbbreviation" = some n.EmployeeAbbreviation ∧
      JsonObject.get req.body "message" = some n.Message) := by
  constructor
  · intro hts k req h
    rw [request_mem_send h, addTimestamp_eq]
    simp [buildRequest, jsonMarshal, JsonObject.get, hts]
  · intro k req h
    rw [request_mem_send h, addTimestamp_eq]
    simp [buildRequest, jsonMarshal, JsonObject.get]

/-- Witness of C9 on the preset-timestamp test, with two failures before the success. -/
theorem caller_fields_sent_unchanged_witness :
    Event.request 3 (buildRequest "http://127.0.0.1:9090/api/notify"
        (jsonMarshal stampedNotification))
      ∈ (SendNotificationWithContext testClient retryEnv stampedNotification).2 ∧
    JsonObject.get (buildRequest "http://127.0.0.1:9090/api/notify"
        (jsonMarshal stampedNotification)).body "timestamp" = some "2024-01-15T10:30:00Z" :=
  ⟨by decide,
    (caller_fields_sent_unchanged testClient retryEnv stampedNotification).1 (by decide) 3 _
      (by decide)⟩

/-- C10: every request of a call has method POST, targets `baseURL` followed by
`/api/notify`, carries the header `Content-Type: application/json`, and its body is the
JSON object with exactly the members `level`, `employeeAbbreviation`, `message` and
`timestamp`, holding the fields passed by the caller, the timestamp being the one passed or,
when none was passed, the one assigned. -/
theorem request_wire_format (c : Client) (env : Env) (n : Notification) :
    ∀ (k : Nat) (req : Request),
      Event.request k req ∈ (SendNotificationWithContext c env n).2 →
      req.method = "POST" ∧
      req.url = c.baseURL ++ "/api/notify" ∧
      headerGet req.header "Content-Type" = some "application/json" ∧
      req.body.map Prod.fst = ["level", "employeeAbbreviation", "message", "timestamp"] ∧
      JsonObject.get req.body "level" = some n.Level ∧
      JsonObject.get req.body "employeeAbbreviation" = some n.EmployeeAbbreviation ∧
      JsonObject.get req.body "message" = some n.Message ∧
      JsonObject.get req.body "timestamp"
        = some (if n.Timestamp = "" then formatRFC3339 env.now else n.Timestamp) := by
  intro k req h
  rw [request_mem_send h, jsonMarshal_of_timestamp _ (addTimestamp_ne_empty env n),
    addTimestamp_eq]
  exact ⟨rfl, rfl, rfl, rfl, rfl, rfl, rfl, rfl⟩

/-- Witness of C10 on the first test: the one request of a call answered with status 200. -/
theorem request_wire_format_witness :
    Event.request 1 (buildRequest "http://127.0.0.1:9090/api/notify"
        (jsonMarshal (addTimestamp retryEnv testNotification)))
      ∈ (SendNotificationWithContext testClient (retryEnv.withAnswer 1 (.response 200))
          testNotification).2 ∧
    (buildRequest "http://127.0.0.1:9090/api/notify"
        (jsonMarshal (addTimestamp retryEnv testNotification))).body
      = [("level", "warning"), ("employeeAbbreviation", "abc"),
          ("message", "Test notification"), ("timestamp", "2024-01-15T10:30:00Z")] ∧
    (buildRequest "http://127.0.0.1:9090/api/notify"
        (jsonMarshal (addTimestamp retryEnv testNotification))).method = "POST" :=
  ⟨by decide, by decide,
    (request_wire_format testClient (retryEnv.withAnswer 1 (.response 200)) testNotification
      1 _ (by decide : Event.request 1 (buildRequest "http://127.0.0.1:9090/api/notify"
        (jsonMarshal (addTimestamp retryEnv testNotification))) ∈ _)).1⟩

end notifications

/-! # Properties of the service and of the handlers -/

namespace services
open models notifications

theorem map_fixed {α : Type} (f : α → α) : ∀ (l : List α), l.map f = l → ∀ x ∈ l, f x = x := by
  intro l
  induction l with
  | nil => intro _ x hx; cases hx
  | cons a t ih =>
    intro h x hx
    simp only [List.map_cons, List.cons.injEq] at h
    rcases List.mem_cons.mp hx with rfl | hx
    · exact h.1
    · exact ih h.2 x hx

theorem toLowerRune_upper (table : Char → Char) (r : Char)
    (h : 65 ≤ r.toNat ∧ r.toNat ≤ 90) : toLowerRune table r ≠ r := by
  intro he
  have h1 : r.toNat ≤ 127 := by omega
  simp only [toLowerRune, h1, h, and_self, if_true] at he
  have hr : r = Char.ofNat r.toNat := (Char.ofNat_toNat r).symm
  obtain ⟨h65, h90⟩ := h
  generalize r.toNat = n at he hr h65 h90
  subst hr
  interval_cases n <;> exact absurd he (by decide)

theorem toLowerRune_ascii (table : Char → Char) (r : Char)
    (h : r.toNat ≤ 127) (hu : ¬ (65 ≤ r.toNat ∧ r.toNat ≤ 90)) : toLowerRune table r = r := by
  simp only [toLowerRune, h, hu, if_true, if_false]

theorem utf8Size_ascii (r : Char) (h : r.toNat ≤ 127) : r.utf8Size = 1 := by
  have : r.val ≤ 127 := by
    simpa [Char.toNat, UInt32.le_def] using h
  simp [Char.utf8Size, this]

theorem ToLower_ne_of_upper (table : Char → Char) (abbr : String) (r : Char)
    (hr : r ∈ abbr.data) (hu : 65 ≤ r.toNat ∧ r.toNat ≤ 90) : abbr ≠ ToLower table abbr := by
  intro h
  have hd : abbr.data.map (toLowerRune table) = abbr.data := by
    have := congrArg String.data h
    simpa [ToLower] using this.symm
  exact toLowerRune_upper table r hu (map_fixed _ _ hd r hr)

theorem utf8ByteSize_ascii (l : List Char) (h : ∀ r ∈ l, r.toNat ≤ 127) :
    (String.mk l).utf8ByteSize = l.length := by
  have hgo : ∀ (l : List Char), (∀ r ∈ l, r.toNat ≤ 127) →
      String.utf8ByteSize.go l = l.length := by
    intro l
    induction l with
    | nil => intro _; rfl
    | cons a t ih =>
      intro h
      simp only [String.utf8ByteSize.go, List.length_cons]
      rw [ih (fun r hr => h r (List.mem_cons_of_mem _ hr)),
        utf8Size_ascii a (h a (List.mem_cons_self _ _))]
  simpa [String.utf8ByteSize] using hgo l h

theorem map_toLowerRune_ascii (table : Char → Char) (l : List Char)
    (h : ∀ r ∈ l, r.toNat ≤ 127 ∧ ¬ (65 ≤ r.toNat ∧ r.toNat ≤ 90)) :
    l.map (toLowerRune table) = l := by
  induction l with
  | nil => rfl
  | cons a t ih =>
    rw [List.map_cons, ih (fun r hr => h r (List.mem_cons_of_mem _ hr)),
      toLowerRune_ascii table a (h a (List.mem_cons_self _ _)).1
        (h a (List.mem_cons_self _ _)).2]

/-- C17 as stated fails: `123` is made of characters none of which is a lower-case letter,
and it is accepted. -/
theorem validateEmployeeAbbreviation_accepts_digits :
    validateEmployeeAbbreviation testService "123" = none ∧
    ("123".data.any Char.isLower) = false ∧
    ("123".data.any Char.isAlpha) = false := by
  decide

/-- C17, as the code has it, for the owner codes made of ASCII characters: such a code is
accepted exactly when it has 3 characters and none of them is an upper-case letter. So a
code that is not made of 3 characters is rejected, a code of 3 characters holding an
upper-case letter is rejected, and a code of 3 lower-case letters is accepted, as is any
code of 3 characters without upper-case letter, digits and punctuation included. -/
theorem validateEmployeeAbbreviation_accepts_iff {σ κ : Type} (s : computerService σ κ)
    (abbr : String) (hascii : ∀ r ∈ abbr.data, r.toNat ≤ 127) :
    (validateEmployeeAbbreviation s abbr = none ↔
      abbr.length = 3 ∧ ∀ r ∈ abbr.data, ¬ (65 ≤ r.toNat ∧ r.toNat ≤ 90)) ∧
    (abbr.length ≠ 3 → validateEmployeeAbbreviation s abbr
      = some (.text "employee abbreviation must be exactly 3 characters")) ∧
    (abbr.length = 3 → (∃ r ∈ abbr.data, 65 ≤ r.toNat ∧ r.toNat ≤ 90) →
      validateEmployeeAbbreviation s abbr
        = some (.text "employee abbreviation must be lowercase")) ∧
    (abbr.length = 3 → (∀ r ∈ abbr.data, 97 ≤ r.toNat ∧ r.toNat ≤ 122) →
      validateEmployeeAbbreviation s abbr = none) := by
  have hsize : abbr.utf8ByteSize = abbr.length := utf8ByteSize_ascii abbr.data hascii
  have hlow : (∀ r ∈ abbr.data, ¬ (65 ≤ r.toNat ∧ r.toNat ≤ 90)) →
      abbr = ToLower s.unicodeLower abbr := by
    intro h
    have := map_toLowerRune_ascii s.unicodeLower abbr.data (fun r hr => ⟨hascii r hr, h r hr⟩)
    simp only [ToLower, this]
  have hacc : abbr.length = 3 → (∀ r ∈ abbr.data, ¬ (65 ≤ r.toNat ∧ r.toNat ≤ 90)) →
      validateEmployeeAbbreviation s abbr = none := by
    intro h3 h
    have hl := hlow h
    simp only [validateEmployeeAbbreviation, hsize, h3, ne_eq, not_true_eq_false, if_false]
    rw [if_neg (fun hn => hn hl)]
  have hup : abbr.length = 3 → (∃ r ∈ abbr.data, 65 ≤ r.toNat ∧ r.toNat ≤ 90) →
      validateEmployeeAbbreviation s abbr
        = some (.text "employee abbreviation must be lowercase") := by
    intro h3 ⟨r, hr, hu⟩
    simp [validateEmployeeAbbreviation, hsize, h3,
      ToLower_ne_of_upper s.unicodeLower abbr r hr hu]
  have hlen : abbr.length ≠ 3 → validateEmployeeAbbreviation s abbr
      = some (.text "employee abbreviation must be exactly 3 characters") := by
    intro h3
    simp [validateEmployeeAbbreviation, hsize, h3]
  refine ⟨⟨?_, fun h => hacc h.1 h.2⟩, hlen, hup, ?_⟩
  · intro hnone
    by_cases h3 : abbr.length = 3
    · refine ⟨h3, ?_⟩
      intro r hr hu
      rw [hup h3 ⟨r, hr, hu⟩] at hnone
      cases hnone
    · rw [hlen h3] at hnone
      cases hnone
  · intro h3 h
    exact hacc h3 (fun r hr hu => by have := h r hr; omega)

/-- Witness of C17: `abc` is accepted, `Abc` and `ab` are rejected, `a-1` is accepted. -/
theorem validateEmployeeAbbreviation_accepts_iff_witness :
    validateEmployeeAbbreviation testService "abc" = none ∧
    validateEmployeeAbbreviation testService "Abc"
      = some (.text "employee abbreviation must be lowercase") ∧
    validateEmployeeAbbreviation testService "ab"
      = some (.text "employee abbreviation must be exactly 3 characters") ∧
    validateEmployeeAbbreviation testService "a-1" = none :=
  ⟨(validateEmployeeAbbreviation_accepts_iff testService "abc" (by decide)).2.2.2 (by decide)
      (by decide),
   (validateEmployeeAbbreviation_accepts_iff testService "Abc" (by decide)).2.2.1 (by decide)
      (by decide),
   (validateEmployeeAbbreviation_accepts_iff testService "ab" (by decide)).2.1 (by decide),
   (validateEmployeeAbbreviation_accepts_iff testService "a-1" (by decide)).1.mpr (by decide)⟩

/-- Outside the ASCII codes the length test counts bytes, not characters: `éa`, two
characters in three bytes, is accepted; `äöü`, three lower-case letters in six bytes, is
rejected with `employee abbreviation must be exactly 3 characters`; `Éa`, three bytes, is
rejected with `employee abbreviation must be lowercase`. -/
theorem validateEmployeeAbbreviation_measures_bytes :
    validateEmployeeAbbreviation testService "éa" = none ∧
    "éa".length = 2 ∧
    validateEmployeeAbbreviation testService "äöü"
      = some (.text "employee abbreviation must be exactly 3 characters") ∧
    "äöü".length = 3 ∧
    validateEmployeeAbbreviation testService "Éa"
      = some (.text "employee abbreviation must be lowercase") := by
  decide

/-- C19: `validateComputer` returns `nil` exactly when MAC address, computer name and IP
address are not empty, the MAC address is 17 bytes long, and the owner code is nil, empty or
accepted by `validateEmployeeAbbreviation`; otherwise the error is that of the first check
that fails, in the order MAC required, name required, IP required, MAC length, owner code. -/
theorem validateComputer_first_failing_check {σ κ : Type} (s : computerService σ κ)
    (computer : Computer) :
    (validateComputer s computer = none ↔
      computer.MACAddress ≠ "" ∧ computer.ComputerName ≠ "" ∧ computer.IPAddress ≠ "" ∧
      computer.MACAddress.utf8ByteSize = 17 ∧
      (computer.EmployeeAbbreviation = none ∨ computer.EmployeeAbbreviation = some "" ∨
        ∃ abbr, computer.EmployeeAbbreviation = some abbr ∧
          validateEmployeeAbbreviation s abbr = none)) ∧
    (computer.MACAddress = "" →
      validateComputer s computer = some (.text "MAC address is required")) ∧
    (computer.MACAddress ≠ "" → computer.ComputerName = "" →
      validateComputer s computer = some (.text "computer name is required")) ∧
    (computer.MACAddress ≠ "" → computer.ComputerName ≠ "" → computer.IPAddress = "" →
      validateComputer s computer = some (.text "IP address is required")) ∧
    (computer.MACAddress ≠ "" → computer.ComputerName ≠ "" → computer.IPAddress ≠ "" →
      computer.MACAddress.utf8ByteSize ≠ 17 →
      validateComputer s computer
        = some (.text "MAC address must be 17 characters long (XX:XX:XX:XX:XX:XX)")) ∧
    (computer.MACAddress ≠ "" → computer.ComputerName ≠ "" → computer.IPAddress ≠ "" →
      computer.MACAddress.utf8ByteSize = 17 →
      ∀ abbr, computer.EmployeeAbbreviation = some abbr → abbr ≠ "" →
      validateComputer s computer = validateEmployeeAbbreviation s abbr) := by
  refine ⟨?_, ?_, ?_, ?_, ?_, ?_⟩
  · unfold validateComputer
    by_cases h1 : computer.MACAddress = ""
    · simp [h1]
    by_cases h2 : computer.ComputerName = ""
    · simp [h1, h2]
    by_cases h3 : computer.IPAddress = ""
    · simp [h1, h2, h3]
    by_cases h4 : computer.MACAddress.utf8ByteSize = 17
    · cases ho : computer.EmployeeAbbreviation with
      | none => simp [h1, h2, h3, h4]
      | some abbr =>
        by_cases he : abbr = ""
        · simp [h1, h2, h3, h4, he]
        · simp [h1, h2, h3, h4, he]
    · simp [h1, h2, h3, h4]
  · intro h1; simp [validateComputer, h1]
  · intro h1 h2; simp [validateComputer, h1, h2]
  · intro h1 h2 h3; simp [validateComputer, h1, h2, h3]
  · intro h1 h2 h3 h4; simp [validateComputer, h1, h2, h3, h4]
  · intro h1 h2 h3 h4 abbr ho he; simp [validateComputer, h1, h2, h3, h4, ho, he]

theorem wrapInt64_of_range (x : Int)
    (h : -9223372036854775808 ≤ x ∧ x < 9223372036854775808) : wrapInt64 x = x := by
  unfold wrapInt64
  omega

/-- What `sendComputerLimitNotification` passes to the client, and the state it leaves the
client in: that of `notifyClient.SendNotification` on this notification. -/
theorem sendComputerLimitNotification_sends {σ κ : Type} (s : computerService σ κ) (k : κ)
    (employeeAbbr : String) (count : Int) :
    (sendComputerLimitNotification s k employeeAbbr count).1
      = limitNotification employeeAbbr count ∧
    (sendComputerLimitNotification s k employeeAbbr count).2.2
      = (s.notifyClient.SendNotification k (limitNotification employeeAbbr count)).2 := by
  simp only [sendComputerLimitNotification, limitNotification]
  rcases s.notifyClient.SendNotification k
      { Level := "warning", EmployeeAbbreviation := employeeAbbr,
        Message := "Employee " ++ employeeAbbr ++ " has been assigned " ++ toString count
          ++ " computers",
        Timestamp := "" } with ⟨res, k1⟩
  cases res <;> exact ⟨rfl, rfl⟩

/-- The effects of a goroutine started for a notification. -/
theorem startNotification_effects {σ κ : Type} (s : computerService σ κ) (done : Result σ κ)
    (employeeAbbr : String) (count : Int) :
    (startNotification s done employeeAbbr count).err = done.err ∧
    (startNotification s done employeeAbbr count).store = done.store ∧
    (startNotification s done employeeAbbr count).calls = done.calls ∧
    (startNotification s done employeeAbbr count).dispatched
      = done.dispatched ++ [limitNotification employeeAbbr count] ∧
    (startNotification s done employeeAbbr count).client
      = (s.notifyClient.SendNotification done.client
          (limitNotification employeeAbbr count)).2 := by
  obtain ⟨h1, h2⟩ := sendComputerLimitNotification_sends s done.client employeeAbbr count
  simp only [startNotification, h1, h2, and_self]

/-- An invalid computer: `CreateComputer` returns the validation error at once. -/
theorem CreateComputer_invalid {σ κ : Type} (s : computerService σ κ) (st : σ) (k : κ)
    (computer : Computer) (e : GoError) (h : validateComputer s computer = some e) :
    CreateComputer s st k computer
      = { err := some e, store := st, calls := [], dispatched := [], printed := [],
          client := k } := by
  simp [CreateComputer, h]

/-- A valid computer without owner: `CreateComputer` calls `Create` and nothing else. -/
theorem CreateComputer_no_owner {σ κ : Type} (s : computerService σ κ) (st : σ) (k : κ)
    (computer : Computer) (hv : validateComputer s computer = none)
    (ho : computer.EmployeeAbbreviation = none ∨ computer.EmployeeAbbreviation = some "") :
    (CreateComputer s st k computer).calls = [.Create computer] ∧
    (CreateComputer s st k computer).dispatched = [] ∧
    (CreateComputer s st k computer).printed = [] ∧
    (CreateComputer s st k computer).store = (s.repo.Create st computer).2 ∧
    (∀ id, (s.repo.Create st computer).1 = .ok id →
      (CreateComputer s st k computer).err = none) ∧
    (∀ e, (s.repo.Create st computer).1 = .error e →
      (CreateComputer s st k computer).err = some (.wrap "failed to create computer" e)) ∧
    (CreateComputer s st k computer).client = k := by
  rcases hc : s.repo.Create st computer with ⟨res, st1⟩
  rcases ho with ho | ho <;> cases res <;> simp [CreateComputer, hv, ho, hc]

/-- A valid computer with an owner whose count query fails. -/
theorem CreateComputer_count_error {σ κ : Type} (s : computerService σ κ) (st : σ) (k : κ)
    (computer : Computer) (abbr : String) (e : GoError)
    (hv : validateComputer s computer = none)
    (ho : computer.EmployeeAbbreviation = some abbr) (hne : abbr ≠ "")
    (hq : s.repo.CountByEmployee st abbr = .error e) :
    CreateComputer s st k computer
      = { err := some (.wrap "failed to count employee computers" e), store := st,
          calls := [.CountByEmployee abbr], dispatched := [], printed := [], client := k } := by
  simp [CreateComputer, hv, ho, hne, hq]

/-- A valid computer with an owner whose count query answers and whose creation fails. -/
theorem CreateComputer_create_error {σ κ : Type} (s : computerService σ κ) (st st1 : σ)
    (k : κ) (computer : Computer) (abbr : String) (before : Int) (e : GoError)
    (hv : validateComputer s computer = none)
    (ho : computer.EmployeeAbbreviation = some abbr) (hne : abbr ≠ "")
    (hq : s.repo.CountByEmployee st abbr = .ok before)
    (hc : s.repo.Create st computer = (.error e, st1)) :
    CreateComputer s st k computer
      = { err := some (.wrap "failed to create computer" e), store := st1,
          calls := [.CountByEmployee abbr, .Create computer], dispatched := [],
          printed := [], client := k } := by
  simp [CreateComputer, hv, ho, hne, hq, hc]

/-- A valid computer with an owner, counted and created. -/
theorem CreateComputer_created {σ κ : Type} (s : computerService σ κ) (st st1 : σ) (k : κ)
    (computer : Computer) (abbr : String) (before : Int) (id : Nat)
    (hv : validateComputer s computer = none)
    (ho : computer.EmployeeAbbreviation = some abbr) (hne : abbr ≠ "")
    (hq : s.repo.CountByEmployee st abbr = .ok before)
    (hc : s.repo.Create st computer = (.ok id, st1)) :
    (CreateComputer s st k computer).err = none ∧
    (CreateComputer s st k computer).store = st1 ∧
    (CreateComputer s st k computer).calls = [.CountByEmployee abbr, .Create computer] ∧
    (CreateComputer s st k computer).dispatched
      = (if wrapInt64 (before + 1) ≥ 3 then [limitNotification abbr (wrapInt64 (before + 1))]
        else []) ∧
    (CreateComputer s st k computer).client
      = (if wrapInt64 (before + 1) ≥ 3 then
          (s.notifyClient.SendNotification k
            (limitNotification abbr (wrapInt64 (before + 1)))).2
        else k) := by
  by_cases h3 : wrapInt64 (before + 1) ≥ 3
  · have hrun : CreateComputer s st k computer
        = startNotification s
            { err := none, store := st1, calls := [.CountByEmployee abbr, .Create computer],
              dispatched := [], printed := [], client := k } abbr (wrapInt64 (before + 1)) := by
      simp [CreateComputer, hv, ho, hne, hq, hc, h3]
    obtain ⟨a1, a2, a3, a4, a5⟩ := startNotification_effects s
      { err := none, store := st1, calls := [.CountByEmployee abbr, .Create computer],
        dispatched := [], printed := [], client := k } abbr (wrapInt64 (before + 1))
    rw [hrun, a1, a2, a3, a4, a5, if_pos h3, if_pos h3]
    exact ⟨rfl, rfl, rfl, rfl, rfl⟩
  · have hrun : CreateComputer s st k computer
        = { err := none, store := st1, calls := [.CountByEmployee abbr, .Create computer],
            dispatched := [], printed := [], client := k } := by
      simp [CreateComputer, hv, ho, hne, hq, hc, h3]
    rw [hrun, if_neg h3, if_neg h3]
    exact ⟨rfl, rfl, rfl, rfl, rfl⟩

/-- C11: for a valid computer with a non-empty owner, whose count `before` the store answers
(an `int64` below its maximum) and whose creation the store confirms, `CreateComputer`
returns `nil` and dispatches a notification exactly when `before + 1 ≥ 3`. The notification
has level `warning`, the owner as employee abbreviation, no timestamp, and the message
`Employee <owner> has been assigned <before + 1> computers`; it is handed to the
notification client, which is left in the state `SendNotification` leaves it in on that
notification, once. When `before + 1 < 3` the client is not called and stays as it was. -/
theorem create_notifies_iff_three_or_more {σ κ : Type} (s : computerService σ κ)
    (st st1 : σ) (k : κ) (computer : Computer) (abbr : String) (before : Int) (id : Nat)
    (hv : validateComputer s computer = none)
    (ho : computer.EmployeeAbbreviation = some abbr) (hne : abbr ≠ "")
    (hq : s.repo.CountByEmployee st abbr = .ok before)
    (hrange : -9223372036854775808 ≤ before ∧ before < 9223372036854775807)
    (hc : s.repo.Create st computer = (.ok id, st1)) :
    (CreateComputer s st k computer).err = none ∧
    ((CreateComputer s st k computer).dispatched ≠ [] ↔ before + 1 ≥ 3) ∧
    (before + 1 ≥ 3 →
      (CreateComputer s st k computer).dispatched
        = [{ Level := "warning", EmployeeAbbreviation := abbr,
             Message := "Employee " ++ abbr ++ " has been assigned " ++ toString (before + 1)
               ++ " computers",
             Timestamp := "" }] ∧
      (CreateComputer s st k computer).client
        = (s.notifyClient.SendNotification k
            { Level := "warning", EmployeeAbbreviation := abbr,
              Message := "Employee " ++ abbr ++ " has been assigned " ++ toString (before + 1)
                ++ " computers",
              Timestamp := "" }).2) ∧
    (before + 1 < 3 →
      (CreateComputer s st k computer).dispatched = [] ∧
      (CreateComputer s st k computer).client = k) ∧
    (CreateComputer s st k computer).dispatched.length ≤ 1 := by
  obtain ⟨herr, _, _, hd, hk⟩ :=
    CreateComputer_created s st st1 k computer abbr before id hv ho hne hq hc
  rw [wrapInt64_of_range (before + 1) (by omega)] at hd hk
  refine ⟨herr, ?_, ?_, ?_, ?_⟩
  · rw [hd]; by_cases h3 : before + 1 ≥ 3 <;> simp [h3]
  · intro h3
    rw [hd, hk, if_pos h3, if_pos h3]
    exact ⟨rfl, rfl⟩
  · intro h3
    rw [hd, hk, if_neg (by omega), if_neg (by omega)]
    exact ⟨rfl, rfl⟩
  · rw [hd]; by_cases h3 : before + 1 ≥ 3 <;> simp [h3]

/-- Witness of C11: the third computer of owner `abc` of the notification test; the mock
client, which had received nothing, holds the notification afterwards. -/
theorem create_notifies_iff_three_or_more_witness :
    (CreateComputer testService
      (stateAfter testService newMockRepository newMockClient
        [numberedComputer 1 (some "abc"), numberedComputer 2 (some "abc")]).1
      newMockClient (numberedComputer 3 (some "abc"))).client.notifications
      = [{ Level := "warning", EmployeeAbbreviation := "abc",
           Message := "Employee abc has been assigned 3 computers", Timestamp := "" }] := by
  have h := ((create_notifies_iff_three_or_more testService
    (stateAfter testService newMockRepository newMockClient
      [numberedComputer 1 (some "abc"), numberedComputer 2 (some "abc")]).1
    (mockRepository.Create (stateAfter testService newMockRepository newMockClient
      [numberedComputer 1 (some "abc"), numberedComputer 2 (some "abc")]).1
      (numberedComputer 3 (some "abc"))).2
    newMockClient (numberedComputer 3 (some "abc")) "abc" 2 3 (by decide) rfl (by decide) rfl
    (by decide) rfl).2.2.1 (by decide)).2
  rw [h]
  rfl

/-- An update for identifier 0 is refused at once. -/
theorem UpdateComputer_zero {σ κ : Type} (s : computerService σ κ) (st : σ) (k : κ) (computer : Computer)
    (hid : computer.ID = 0) :
    UpdateComputer s st k computer
      = { err := some (.text "invalid computer ID"), store := st, calls := [],
          dispatched := [], printed := [], client := k } := by
  simp [UpdateComputer, hid]

/-- An update of a computer the store does not find. -/
theorem UpdateComputer_missing {σ κ : Type} (s : computerService σ κ) (st : σ) (k : κ)
    (computer : Computer) (e : GoError) (hid : computer.ID ≠ 0)
    (hget : s.repo.GetByID st computer.ID = .error e) :
    UpdateComputer s st k computer
      = { err := some (.wrap "computer not found" e), store := st,
          calls := [.GetByID computer.ID], dispatched := [], printed := [], client := k } := by
  simp [UpdateComputer, hid, hget]

/-- An update with invalid data of a computer the store finds. -/
theorem UpdateComputer_invalid {σ κ : Type} (s : computerService σ κ) (st : σ) (k : κ)
    (computer existing : Computer) (e : GoError) (hid : computer.ID ≠ 0)
    (hget : s.repo.GetByID st computer.ID = .ok existing)
    (hv : validateComputer s computer = some e) :
    UpdateComputer s st k computer
      = { err := some e, store := st, calls := [.GetByID computer.ID], dispatched := [],
          printed := [], client := k } := by
  simp [UpdateComputer, hid, hget, hv]

/-- An update the store refuses. -/
theorem UpdateComputer_update_error {σ κ : Type} (s : computerService σ κ) (st st1 : σ) (k : κ)
    (computer existing : Computer) (e : GoError) (hid : computer.ID ≠ 0)
    (hget : s.repo.GetByID st computer.ID = .ok existing)
    (hv : validateComputer s computer = none)
    (hupd : s.repo.Update st computer = (some e, st1)) :
    UpdateComputer s st k computer
      = { err := some (.wrap "failed to update computer" e), store := st1,
          calls := [.GetByID computer.ID, .Update computer], dispatched := [],
          printed := [], client := k } := by
  simp [UpdateComputer, hid, hget, hv, hupd]

/-- An update that keeps the owner or leaves the computer without owner. -/
theorem UpdateComputer_same_owner {σ κ : Type} (s : computerService σ κ) (st st1 : σ) (k : κ)
    (computer existing : Computer) (hid : computer.ID ≠ 0)
    (hget : s.repo.GetByID st computer.ID = .ok existing)
    (hv : validateComputer s computer = none)
    (hupd : s.repo.Update st computer = (none, st1))
    (hsame : existing.EmployeeAbbreviation.getD "" = computer.EmployeeAbbreviation.getD "" ∨
      computer.EmployeeAbbreviation.getD "" = "") :
    UpdateComputer s st k computer
      = { err := none, store := st1, calls := [.GetByID computer.ID, .Update computer],
          dispatched := [], printed := [], client := k } := by
  have : ¬ (existing.EmployeeAbbreviation.getD "" ≠ computer.EmployeeAbbreviation.getD "" ∧
      computer.EmployeeAbbreviation.getD "" ≠ "") := by
    rcases hsame with h | h
    · exact fun hh => hh.1 h
    · exact fun hh => hh.2 h
  simp only [UpdateComputer, hid, hget, hv, hupd, if_false, this]

/-- An update that changes the owner, the count query failing afterwards. -/
theorem UpdateComputer_count_error {σ κ : Type} (s : computerService σ κ) (st st1 : σ)
    (k : κ) (computer existing : Computer) (e : GoError) (hid : computer.ID ≠ 0)
    (hget : s.repo.GetByID st computer.ID = .ok existing)
    (hv : validateComputer s computer = none)
    (hupd : s.repo.Update st computer = (none, st1))
    (hchg : existing.EmployeeAbbreviation.getD "" ≠ computer.EmployeeAbbreviation.getD "")
    (hne : computer.EmployeeAbbreviation.getD "" ≠ "")
    (hq : s.repo.CountByEmployee st1 (computer.EmployeeAbbreviation.getD "") = .error e) :
    UpdateComputer s st k computer
      = { err := none, store := st1,
          calls := [.GetByID computer.ID, .Update computer,
            .CountByEmployee (computer.EmployeeAbbreviation.getD "")],
          dispatched := [],
          printed := ["Warning: failed to count computers for employee "
            ++ computer.EmployeeAbbreviation.getD "" ++ ": " ++ e.Error ++ "\n"],
          client := k } := by
  have : existing.EmployeeAbbreviation.getD "" ≠ computer.EmployeeAbbreviation.getD "" ∧
      computer.EmployeeAbbreviation.getD "" ≠ "" := ⟨hchg, hne⟩
  simp only [UpdateComputer, hid, hget, hv, hupd, if_false, hq]
  rw [if_pos this]

/-- An update that changes the owner, the count query answering afterwards. -/
theorem UpdateComputer_counted {σ κ : Type} (s : computerService σ κ) (st st1 : σ) (k : κ)
    (computer existing : Computer) (count : Int) (hid : computer.ID ≠ 0)
    (hget : s.repo.GetByID st computer.ID = .ok existing)
    (hv : validateComputer s computer = none)
    (hupd : s.repo.Update st computer = (none, st1))
    (hchg : existing.EmployeeAbbreviation.getD "" ≠ computer.EmployeeAbbreviation.getD "")
    (hne : computer.EmployeeAbbreviation.getD "" ≠ "")
    (hq : s.repo.CountByEmployee st1 (computer.EmployeeAbbreviation.getD "") = .ok count) :
    (UpdateComputer s st k computer).err = none ∧
    (UpdateComputer s st k computer).store = st1 ∧
    (UpdateComputer s st k computer).calls
      = [.GetByID computer.ID, .Update computer,
          .CountByEmployee (computer.EmployeeAbbreviation.getD "")] ∧
    (UpdateComputer s st k computer).dispatched
      = (if count ≥ 3 then [limitNotification (computer.EmployeeAbbreviation.getD "") count]
        else []) ∧
    (UpdateComputer s st k computer).client
      = (if count ≥ 3 then
          (s.notifyClient.SendNotification k
            (limitNotification (computer.EmployeeAbbreviation.getD "") count)).2
        else k) := by
  have hboth : existing.EmployeeAbbreviation.getD "" ≠ computer.EmployeeAbbreviation.getD "" ∧
      computer.EmployeeAbbreviation.getD "" ≠ "" := ⟨hchg, hne⟩
  by_cases h3 : count ≥ 3
  · have hrun : UpdateComputer s st k computer
        = startNotification s
            { err := none, store := st1,
              calls := [.GetByID computer.ID, .Update computer,
                .CountByEmployee (computer.EmployeeAbbreviation.getD "")],
              dispatched := [], printed := [], client := k }
            (computer.EmployeeAbbreviation.getD "") count := by
      simp only [UpdateComputer, hid, hget, hv, hupd, if_false, hq]
      rw [if_pos hboth, if_pos h3]
    obtain ⟨a1, a2, a3, a4, a5⟩ := startNotification_effects s
      { err := none, store := st1,
        calls := [.GetByID computer.ID, .Update computer,
          .CountByEmployee (computer.EmployeeAbbreviation.getD "")],
        dispatched := [], printed := [], client := k }
      (computer.EmployeeAbbreviation.getD "") count
    rw [hrun, a1, a2, a3, a4, a5, if_pos h3, if_pos h3]
    exact ⟨rfl, rfl, rfl, rfl, rfl⟩
  · have hrun : UpdateComputer s st k computer
        = { err := none, store := st1,
            calls := [.GetByID computer.ID, .Update computer,
              .CountByEmployee (computer.EmployeeAbbreviation.getD "")],
            dispatched := [], printed := [], client := k } := by
      simp only [UpdateComputer, hid, hget, hv, hupd, if_false, hq]
      rw [if_pos hboth, if_neg h3]
    rw [hrun, if_neg h3, if_neg h3]
    exact ⟨rfl, rfl, rfl, rfl, rfl⟩

/-- C13: for an update that goes through (identifier not 0, computer found, data valid,
`Update` accepted), a notification is dispatched exactly when the owner changed, the new
owner is not empty and the count of the new owner, queried on the store left by the update,
is answered and is at least 3. The notification names the new owner, never the old one,
carries that count, and is handed to the notification client, once: the client is left in
the state `SendNotification` leaves it in on that notification. An owner re-counted at 3 is
notified with count 3. An update that keeps the owner or leaves the computer without owner
dispatches nothing and does not call the client; neither does one whose count stays
below 3 or fails. -/
theorem update_notifies_new_owner_iff {σ κ : Type} (s : computerService σ κ) (st st1 : σ)
    (k : κ) (computer existing : Computer) (hid : computer.ID ≠ 0)
    (hget : s.repo.GetByID st computer.ID = .ok existing)
    (hv : validateComputer s computer = none)
    (hupd : s.repo.Update st computer = (none, st1)) :
    (UpdateComputer s st k computer).err = none ∧
    ((UpdateComputer s st k computer).dispatched ≠ [] ↔
      existing.EmployeeAbbreviation.getD "" ≠ computer.EmployeeAbbreviation.getD "" ∧
      computer.EmployeeAbbreviation.getD "" ≠ "" ∧
      ∃ count, s.repo.CountByEmployee st1 (computer.EmployeeAbbreviation.getD "") = .ok count ∧
        3 ≤ count) ∧
    (∀ count,
      existing.EmployeeAbbreviation.getD "" ≠ computer.EmployeeAbbreviation.getD "" →
      computer.EmployeeAbbreviation.getD "" ≠ "" →
      s.repo.CountByEmployee st1 (computer.EmployeeAbbreviation.getD "") = .ok count →
      3 ≤ count →
      (UpdateComputer s st k computer).dispatched
        = [{ Level := "warning",
             EmployeeAbbreviation := computer.EmployeeAbbreviation.getD "",
             Message := "Employee " ++ computer.EmployeeAbbreviation.getD ""
               ++ " has been assigned " ++ toString count ++ " computers",
             Timestamp := "" }] ∧
      (UpdateComputer s st k computer).client
        = (s.notifyClient.SendNotification k
            { Level := "warning",
              EmployeeAbbreviation := computer.EmployeeAbbreviation.getD "",
              Message := "Employee " ++ computer.EmployeeAbbreviation.getD ""
                ++ " has been assigned " ++ toString count ++ " computers",
              Timestamp := "" }).2) ∧
    (∀ n ∈ (UpdateComputer s st k computer).dispatched,
      n.EmployeeAbbreviation = computer.EmployeeAbbreviation.getD "" ∧
      n.EmployeeAbbreviation ≠ existing.EmployeeAbbreviation.getD "") ∧
    (existing.EmployeeAbbreviation.getD "" = computer.EmployeeAbbreviation.getD "" →
      (UpdateComputer s st k computer).dispatched = [] ∧
      (UpdateComputer s st k computer).client = k) ∧
    (computer.EmployeeAbbreviation.getD "" = "" →
      (UpdateComputer s st k computer).dispatched = [] ∧
      (UpdateComputer s st k computer).client = k) ∧
    ((UpdateComputer s st k computer).dispatched = [] →
      (UpdateComputer s st k computer).client = k) ∧
    (UpdateComputer s st k computer).dispatched.length ≤ 1 := by
  by_cases hchg : existing.EmployeeAbbreviation.getD "" = computer.EmployeeAbbreviation.getD ""
  · rw [UpdateComputer_same_owner s st st1 k computer existing hid hget hv hupd (Or.inl hchg)]
    simp [hchg]
  by_cases hne : computer.EmployeeAbbreviation.getD "" = ""
  · rw [UpdateComputer_same_owner s st st1 k computer existing hid hget hv hupd (Or.inr hne)]
    simp [hne]
  cases hq : s.repo.CountByEmployee st1 (computer.EmployeeAbbreviation.getD "") with
  | error e =>
    rw [UpdateComputer_count_error s st st1 k computer existing e hid hget hv hupd hchg hne hq]
    simp
  | ok count =>
    obtain ⟨herr, _, _, hd, hk⟩ :=
      UpdateComputer_counted s st st1 k computer existing count hid hget hv hupd hchg hne hq
    rw [hd, hk]
    refine ⟨herr, ?_, ?_, ?_, ?_, ?_, ?_, ?_⟩
    · by_cases h3 : count ≥ 3
      · simp [h3, hchg, hne]
      · simp [h3]
    · intro count2 _ _ h2 h3
      cases h2
      rw [if_pos h3, if_pos h3]
      exact ⟨rfl, rfl⟩
    · intro n hn
      by_cases h3 : count ≥ 3
      · rw [if_pos h3] at hn
        rw [List.mem_singleton.mp hn]
        exact ⟨rfl, fun h => hchg h.symm⟩
      · rw [if_neg h3] at hn; cases hn
    · intro h; exact absurd h hchg
    · intro h; exact absurd h hne
    · intro hnil
      by_cases h3 : count ≥ 3
      · rw [if_pos h3] at hnil; cases hnil
      · rw [if_neg h3]
    · by_cases h3 : count ≥ 3 <;> simp [h3]

/-- Witness of C13: computer 1 of owner `aaa` goes to owner `bbb`, who holds computers 2
and 3: the mock client, which had received nothing, holds the notification of `bbb` with
count 3 afterwards. -/
theorem update_notifies_new_owner_iff_witness :
    (UpdateComputer tableService sampleTable newMockClient
      { numberedComputer 1 (some "bbb") with ID := 1 }).client.notifications
      = [{ Level := "warning", EmployeeAbbreviation := "bbb",
           Message := "Employee bbb has been assigned 3 computers", Timestamp := "" }] := by
  have h := ((update_notifies_new_owner_iff tableService sampleTable
    (tableRepository.Update sampleTable { numberedComputer 1 (some "bbb") with ID := 1 }).2
    newMockClient
    { numberedComputer 1 (some "bbb") with ID := 1 }
    { numberedComputer 1 (some "aaa") with ID := 1 }
    (by decide) rfl (by decide) rfl).2.2.1 3 (by decide) (by decide) rfl (by decide)).2
  rw [h]
  rfl

/-- C14 as stated fails for `CreateComputer`: when the count query fails, the call returns
the error `failed to count employee computers` and `Create` is never called. -/
theorem create_count_failure_aborts :
    (CreateComputer countFailingService newMockRepository newMockClient (testComputer (some "abc"))).err
      = some (.wrap "failed to count employee computers" (.text "database is locked")) ∧
    (CreateComputer countFailingService newMockRepository newMockClient (testComputer (some "abc"))).calls
      = [.CountByEmployee "abc"] ∧
    validateComputer countFailingService (testComputer (some "abc")) = none := by
  decide

/-- C14, as the code has it: when the count query that follows an accepted update fails,
`UpdateComputer` returns `nil`, leaves the store as `Update` left it, its last repository
call being the count query, and dispatches nothing; when the count query of
`CreateComputer`, which precedes the creation, fails, `CreateComputer` returns the error
`failed to count employee computers`, calls nothing else, leaves the store as it was and
dispatches nothing. In both cases the notification client is not called. -/
theorem count_failure_policy {σ κ : Type} (s : computerService σ κ) (st : σ) (k : κ)
    (computer : Computer) :
    (∀ (existing : Computer) (st1 : σ) (e : GoError), computer.ID ≠ 0 →
      s.repo.GetByID st computer.ID = .ok existing →
      validateComputer s computer = none →
      s.repo.Update st computer = (none, st1) →
      existing.EmployeeAbbreviation.getD "" ≠ computer.EmployeeAbbreviation.getD "" →
      computer.EmployeeAbbreviation.getD "" ≠ "" →
      s.repo.CountByEmployee st1 (computer.EmployeeAbbreviation.getD "") = .error e →
      (UpdateComputer s st k computer).err = none ∧
      (UpdateComputer s st k computer).store = st1 ∧
      (UpdateComputer s st k computer).calls
        = [.GetByID computer.ID, .Update computer,
            .CountByEmployee (computer.EmployeeAbbreviation.getD "")] ∧
      (UpdateComputer s st k computer).dispatched = [] ∧
      (UpdateComputer s st k computer).client = k) ∧
    (∀ (abbr : String) (e : GoError), validateComputer s computer = none →
      computer.EmployeeAbbreviation = some abbr → abbr ≠ "" →
      s.repo.CountByEmployee st abbr = .error e →
      (CreateComputer s st k computer).err
        = some (.wrap "failed to count employee computers" e) ∧
      (CreateComputer s st k computer).store = st ∧
      (CreateComputer s st k computer).calls = [.CountByEmployee abbr] ∧
      (CreateComputer s st k computer).dispatched = [] ∧
      (CreateComputer s st k computer).client = k) := by
  constructor
  · intro existing st1 e hid hget hv hupd hchg hne hq
    rw [UpdateComputer_count_error s st st1 k computer existing e hid hget hv hupd hchg hne hq]
    exact ⟨rfl, rfl, rfl, rfl, rfl⟩
  · intro abbr e hv ho hne hq
    rw [CreateComputer_count_error s st k computer abbr e hv ho hne hq]
    exact ⟨rfl, rfl, rfl, rfl, rfl⟩

/-- Witness of C14: computer 1 of owner `abc` goes to owner `xyz` on a store whose count
query fails: the update returns `nil` after the three calls and dispatches nothing. -/
theorem count_failure_policy_witness :
    (UpdateComputer countFailingService storeWithComputer newMockClient
        { testComputer (some "xyz") with ID := 1 }).err = none ∧
    (UpdateComputer countFailingService storeWithComputer newMockClient
        { testComputer (some "xyz") with ID := 1 }).calls
      = [.GetByID 1, .Update { testComputer (some "xyz") with ID := 1 },
          .CountByEmployee "xyz"] ∧
    (UpdateComputer countFailingService storeWithComputer newMockClient
        { testComputer (some "xyz") with ID := 1 }).dispatched = [] ∧
    (UpdateComputer countFailingService storeWithComputer newMockClient
        { testComputer (some "xyz") with ID := 1 }).client.notifications = [] := by
  obtain ⟨h1, _, h3, h4, h5⟩ :=
    (count_failure_policy countFailingService storeWithComputer newMockClient
      { testComputer (some "xyz") with ID := 1 }).1
      { testComputer (some "abc") with ID := 1 }
      (countFailingRepository.Update storeWithComputer
        { testComputer (some "xyz") with ID := 1 }).2
      (.text "database is locked") (by decide) rfl (by decide) rfl (by decide) (by decide) rfl
  exact ⟨h1, h3, h4, by rw [h5]; rfl⟩

/-- C16 as stated fails for `UpdateComputer`: with a missing MAC address and the
identifier of a stored computer, the validation error comes after a `GetByID` call. -/
theorem update_validates_after_lookup :
    (UpdateComputer testService storeWithComputer newMockClient
        { testComputer (some "abc") with ID := 1, MACAddress := "" }).err
      = some (.text "MAC address is required") ∧
    (UpdateComputer testService storeWithComputer newMockClient
        { testComputer (some "abc") with ID := 1, MACAddress := "" }).calls
      = [.GetByID 1] := by
  decide

/-- C16, as the code has it: for every computer `validateComputer` rejects (among them those
without MAC address, computer name or IP address, and those whose owner code is not 3 bytes
long or holds an upper-case letter), `CreateComputer` returns the validation error without
any repository call and without dispatching; `UpdateComputer` refuses identifier 0 without
any call, and otherwise looks the computer up first, one `GetByID` call: when the computer
is found it returns the validation error with no other call, the store unchanged and
nothing dispatched, and when it is not found it returns `computer not found`. -/
theorem validation_error_before_mutation {σ κ : Type} (s : computerService σ κ) (st : σ) (k : κ)
    (computer : Computer) (e : GoError) (hv : validateComputer s computer = some e) :
    ((CreateComputer s st k computer).err = some e ∧
      (CreateComputer s st k computer).calls = [] ∧
      (CreateComputer s st k computer).dispatched = [] ∧
      (CreateComputer s st k computer).store = st) ∧
    (computer.ID = 0 →
      (UpdateComputer s st k computer).err = some (.text "invalid computer ID") ∧
      (UpdateComputer s st k computer).calls = [] ∧
      (UpdateComputer s st k computer).dispatched = []) ∧
    (∀ existing, computer.ID ≠ 0 → s.repo.GetByID st computer.ID = .ok existing →
      (UpdateComputer s st k computer).err = some e ∧
      (UpdateComputer s st k computer).calls = [.GetByID computer.ID] ∧
      (UpdateComputer s st k computer).dispatched = [] ∧
      (UpdateComputer s st k computer).store = st) ∧
    (∀ cause, computer.ID ≠ 0 → s.repo.GetByID st computer.ID = .error cause →
      (UpdateComputer s st k computer).err = some (.wrap "computer not found" cause) ∧
      (UpdateComputer s st k computer).calls = [.GetByID computer.ID] ∧
      (UpdateComputer s st k computer).dispatched = [] ∧
      (UpdateComputer s st k computer).store = st) := by
  refine ⟨?_, ?_, ?_, ?_⟩
  · rw [CreateComputer_invalid s st k computer e hv]
    exact ⟨rfl, rfl, rfl, rfl⟩
  · intro hid
    rw [UpdateComputer_zero s st k computer hid]
    exact ⟨rfl, rfl, rfl⟩
  · intro existing hid hget
    rw [UpdateComputer_invalid s st k computer existing e hid hget hv]
    exact ⟨rfl, rfl, rfl, rfl⟩
  · intro cause hid hget
    rw [UpdateComputer_missing s st k computer cause hid hget]
    exact ⟨rfl, rfl, rfl, rfl⟩

/-- Witness of C16: the computer without MAC address of the validation test. -/
theorem validation_error_before_mutation_witness :
    (CreateComputer testService newMockRepository newMockClient
        { testComputer none with MACAddress := "" }).err
      = some (.text "MAC address is required") ∧
    (CreateComputer testService newMockRepository newMockClient
        { testComputer none with MACAddress := "" }).calls = [] ∧
    (CreateComputer testService newMockRepository newMockClient
        { testComputer none with MACAddress := "" }).dispatched = [] := by
  obtain ⟨h1, h2, h3, _⟩ :=
    (validation_error_before_mutation testService newMockRepository newMockClient
      { testComputer none with MACAddress := "" } (.text "MAC address is required")
      (by decide)).1
  exact ⟨h1, h2, h3⟩

/-- C20 as stated fails on the result: when `Create` fails, `CreateComputer` does not return
the error of the store but that error wrapped in `failed to create computer`. -/
theorem create_error_is_wrapped :
    (createFailingService.repo.Create newMockRepository (testComputer none)).1
      = .error (.text "UNIQUE constraint failed: computers.mac_address") ∧
    (CreateComputer createFailingService newMockRepository newMockClient (testComputer none)).err
      = some (.wrap "failed to create computer"
          (.text "UNIQUE constraint failed: computers.mac_address")) ∧
    (CreateComputer createFailingService newMockRepository newMockClient (testComputer none)).err
      ≠ some (.text "UNIQUE constraint failed: computers.mac_address") :=
  ⟨rfl, by decide, by decide⟩

/-- C20, as the code has it: for a valid computer whose owner code is nil or empty,
`CreateComputer` calls `Create` and nothing else (no count query), dispatches nothing,
leaves the store as `Create` left it, and returns `nil` when `Create` succeeds and the
error of `Create` wrapped in `failed to create computer` when it fails. -/
theorem create_without_owner {σ κ : Type} (s : computerService σ κ) (st : σ) (k : κ)
    (computer : Computer) (hv : validateComputer s computer = none)
    (ho : computer.EmployeeAbbreviation = none ∨ computer.EmployeeAbbreviation = some "") :
    (CreateComputer s st k computer).calls = [.Create computer] ∧
    (∀ abbr, RepoCall.CountByEmployee abbr ∉ (CreateComputer s st k computer).calls) ∧
    (CreateComputer s st k computer).dispatched = [] ∧
    (CreateComputer s st k computer).store = (s.repo.Create st computer).2 ∧
    (∀ id, (s.repo.Create st computer).1 = .ok id → (CreateComputer s st k computer).err = none) ∧
    (∀ e, (s.repo.Create st computer).1 = .error e →
      (CreateComputer s st k computer).err = some (.wrap "failed to create computer" e)) := by
  obtain ⟨h1, h2, _, h4, h5, h6, _⟩ := CreateComputer_no_owner s st k computer hv ho
  refine ⟨h1, ?_, h2, h4, h5, h6⟩
  intro abbr hm
  rw [h1] at hm
  simp at hm

/-- Witness of C20: a computer without owner on the store of the tests. -/
theorem create_without_owner_witness :
    (CreateComputer testService newMockRepository newMockClient (testComputer none)).calls
      = [.Create (testComputer none)] ∧
    (CreateComputer testService newMockRepository newMockClient (testComputer none)).dispatched = [] ∧
    (CreateComputer testService newMockRepository newMockClient (testComputer none)).err = none := by
  obtain ⟨h1, _, h3, _, h5, _⟩ :=
    create_without_owner testService newMockRepository newMockClient (testComputer none) (by decide)
      (Or.inl rfl)
  exact ⟨h1, h3, h5 1 rfl⟩

theorem CreateComputer_client_irrelevant {σ κ1 κ2 : Type} (repo : ComputerRepository σ)
    (table : Char → Char) (client1 : NotificationClient κ1) (client2 : NotificationClient κ2)
    (st : σ) (k1 : κ1) (k2 : κ2) (computer : Computer) :
    (CreateComputer ⟨repo, client1, table⟩ st k1 computer).err
        = (CreateComputer ⟨repo, client2, table⟩ st k2 computer).err ∧
    (CreateComputer ⟨repo, client1, table⟩ st k1 computer).store
        = (CreateComputer ⟨repo, client2, table⟩ st k2 computer).store ∧
    (CreateComputer ⟨repo, client1, table⟩ st k1 computer).calls
        = (CreateComputer ⟨repo, client2, table⟩ st k2 computer).calls ∧
    (CreateComputer ⟨repo, client1, table⟩ st k1 computer).dispatched
        = (CreateComputer ⟨repo, client2, table⟩ st k2 computer).dispatched := by
  have hvv : validateComputer (⟨repo, client1, table⟩ : computerService σ κ1) computer
      = validateComputer (⟨repo, client2, table⟩ : computerService σ κ2) computer := rfl
  have noOwner : (computer.EmployeeAbbreviation = none ∨
      computer.EmployeeAbbreviation = some "") →
      validateComputer (⟨repo, client2, table⟩ : computerService σ κ2) computer = none → _ :=
    fun ho hv =>
      (⟨CreateComputer_no_owner ⟨repo, client1, table⟩ st k1 computer (hvv.trans hv) ho,
        CreateComputer_no_owner ⟨repo, client2, table⟩ st k2 computer hv ho⟩ : _ ∧ _)
  cases hv : validateComputer (⟨repo, client2, table⟩ : computerService σ κ2) computer with
  | some e =>
    rw [CreateComputer_invalid ⟨repo, client1, table⟩ st k1 computer e (hvv.trans hv),
      CreateComputer_invalid ⟨repo, client2, table⟩ st k2 computer e hv]
    exact ⟨rfl, rfl, rfl, rfl⟩
  | none =>
    by_cases ho : computer.EmployeeAbbreviation = none ∨ computer.EmployeeAbbreviation = some ""
    · obtain ⟨⟨a1, a2, _, a4, a5, a6, _⟩, ⟨b1, b2, _, b4, b5, b6, _⟩⟩ := noOwner ho hv
      refine ⟨?_, by rw [a4, b4], by rw [a1, b1], by rw [a2, b2]⟩
      cases hc : (repo.Create st computer).1 with
      | error e => rw [a6 e hc, b6 e hc]
      | ok id => rw [a5 id hc, b5 id hc]
    · cases hab : computer.EmployeeAbbreviation with
      | none => exact absurd (Or.inl hab) ho
      | some abbr =>
        have hne : abbr ≠ "" := fun h => ho (Or.inr (by rw [hab, h]))
        cases hq : repo.CountByEmployee st abbr with
        | error e =>
          rw [CreateComputer_count_error ⟨repo, client1, table⟩ st k1 computer abbr e
              (hvv.trans hv) hab hne hq,
            CreateComputer_count_error ⟨repo, client2, table⟩ st k2 computer abbr e hv hab hne hq]
          exact ⟨rfl, rfl, rfl, rfl⟩
        | ok before =>
          rcases hc : repo.Create st computer with ⟨res, st1⟩
          cases res with
          | error e =>
            rw [CreateComputer_create_error ⟨repo, client1, table⟩ st st1 k1 computer abbr before e
                (hvv.trans hv) hab hne hq hc,
              CreateComputer_create_error ⟨repo, client2, table⟩ st st1 k2 computer abbr before e
                hv hab hne hq hc]
            exact ⟨rfl, rfl, rfl, rfl⟩
          | ok id =>
            obtain ⟨a1, a2, a3, a4, _⟩ := CreateComputer_created ⟨repo, client1, table⟩ st st1 k1
              computer abbr before id (hvv.trans hv) hab hne hq hc
            obtain ⟨b1, b2, b3, b4, _⟩ := CreateComputer_created ⟨repo, client2, table⟩ st st1 k2
              computer abbr before id hv hab hne hq hc
            exact ⟨by rw [a1, b1], by rw [a2, b2], by rw [a3, b3], by rw [a4, b4]⟩

theorem UpdateComputer_client_irrelevant {σ κ1 κ2 : Type} (repo : ComputerRepository σ)
    (table : Char → Char) (client1 : NotificationClient κ1) (client2 : NotificationClient κ2)
    (st : σ) (k1 : κ1) (k2 : κ2) (computer : Computer) :
    (UpdateComputer ⟨repo, client1, table⟩ st k1 computer).err
        = (UpdateComputer ⟨repo, client2, table⟩ st k2 computer).err ∧
    (UpdateComputer ⟨repo, client1, table⟩ st k1 computer).store
        = (UpdateComputer ⟨repo, client2, table⟩ st k2 computer).store ∧
    (UpdateComputer ⟨repo, client1, table⟩ st k1 computer).calls
        = (UpdateComputer ⟨repo, client2, table⟩ st k2 computer).calls ∧
    (UpdateComputer ⟨repo, client1, table⟩ st k1 computer).dispatched
        = (UpdateComputer ⟨repo, client2, table⟩ st k2 computer).dispatched := by
  have hvv : validateComputer (⟨repo, client1, table⟩ : computerService σ κ1) computer
      = validateComputer (⟨repo, client2, table⟩ : computerService σ κ2) computer := rfl
  by_cases hid : computer.ID = 0
  · rw [UpdateComputer_zero ⟨repo, client1, table⟩ st k1 computer hid,
      UpdateComputer_zero ⟨repo, client2, table⟩ st k2 computer hid]
    exact ⟨rfl, rfl, rfl, rfl⟩
  cases hget : repo.GetByID st computer.ID with
  | error e =>
    rw [UpdateComputer_missing ⟨repo, client1, table⟩ st k1 computer e hid hget,
      UpdateComputer_missing ⟨repo, client2, table⟩ st k2 computer e hid hget]
    exact ⟨rfl, rfl, rfl, rfl⟩
  | ok existing =>
    cases hv : validateComputer (⟨repo, client2, table⟩ : computerService σ κ2) computer with
    | some e =>
      rw [UpdateComputer_invalid ⟨repo, client1, table⟩ st k1 computer existing e hid hget
          (hvv.trans hv),
        UpdateComputer_invalid ⟨repo, client2, table⟩ st k2 computer existing e hid hget hv]
      exact ⟨rfl, rfl, rfl, rfl⟩
    | none =>
      rcases hupd : repo.Update st computer with ⟨res, st1⟩
      cases res with
      | some e =>
        rw [UpdateComputer_update_error ⟨repo, client1, table⟩ st st1 k1 computer existing e hid
            hget (hvv.trans hv) hupd,
          UpdateComputer_update_error ⟨repo, client2, table⟩ st st1 k2 computer existing e hid
            hget hv hupd]
        exact ⟨rfl, rfl, rfl, rfl⟩
      | none =>
        by_cases hsame : existing.EmployeeAbbreviation.getD ""
            = computer.EmployeeAbbreviation.getD "" ∨ computer.EmployeeAbbreviation.getD "" = ""
        · rw [UpdateComputer_same_owner ⟨repo, client1, table⟩ st st1 k1 computer existing hid
              hget (hvv.trans hv) hupd hsame,
            UpdateComputer_same_owner ⟨repo, client2, table⟩ st st1 k2 computer existing hid
              hget hv hupd hsame]
          exact ⟨rfl, rfl, rfl, rfl⟩
        · have hchg : existing.EmployeeAbbreviation.getD ""
              ≠ computer.EmployeeAbbreviation.getD "" := fun h => hsame (Or.inl h)
          have hne : computer.EmployeeAbbreviation.getD "" ≠ "" := fun h => hsame (Or.inr h)
          cases hq : repo.CountByEmployee st1 (computer.EmployeeAbbreviation.getD "") with
          | error e =>
            rw [UpdateComputer_count_error ⟨repo, client1, table⟩ st st1 k1 computer existing e
                hid hget (hvv.trans hv) hupd hchg hne hq,
              UpdateComputer_count_error ⟨repo, client2, table⟩ st st1 k2 computer existing e
                hid hget hv hupd hchg hne hq]
            exact ⟨rfl, rfl, rfl, rfl⟩
          | ok count =>
            obtain ⟨a1, a2, a3, a4, _⟩ := UpdateComputer_counted ⟨repo, client1, table⟩ st st1 k1
              computer existing count hid hget (hvv.trans hv) hupd hchg hne hq
            obtain ⟨b1, b2, b3, b4, _⟩ := UpdateComputer_counted ⟨repo, client2, table⟩ st st1 k2
              computer existing count hid hget hv hupd hchg hne hq
            exact ⟨by rw [a1, b1], by rw [a2, b2], by rw [a3, b3], by rw [a4, b4]⟩

/-- C15: whatever two notification clients do (accept, fail, report a cancellation), and
whatever state they are in, `CreateComputer` and `UpdateComputer` return the same error,
leave the same store, make the same repository calls in the same order and dispatch the same
notifications with one client as with the other, for every repository, store and
computer. -/
theorem mutation_result_independent_of_delivery {σ κ1 κ2 : Type} (repo : ComputerRepository σ)
    (table : Char → Char) (client1 : NotificationClient κ1) (client2 : NotificationClient κ2)
    (st : σ) (k1 : κ1) (k2 : κ2) (computer : Computer) :
    ((CreateComputer ⟨repo, client1, table⟩ st k1 computer).err
        = (CreateComputer ⟨repo, client2, table⟩ st k2 computer).err ∧
      (CreateComputer ⟨repo, client1, table⟩ st k1 computer).store
        = (CreateComputer ⟨repo, client2, table⟩ st k2 computer).store ∧
      (CreateComputer ⟨repo, client1, table⟩ st k1 computer).calls
        = (CreateComputer ⟨repo, client2, table⟩ st k2 computer).calls ∧
      (CreateComputer ⟨repo, client1, table⟩ st k1 computer).dispatched
        = (CreateComputer ⟨repo, client2, table⟩ st k2 computer).dispatched) ∧
    ((UpdateComputer ⟨repo, client1, table⟩ st k1 computer).err
        = (UpdateComputer ⟨repo, client2, table⟩ st k2 computer).err ∧
      (UpdateComputer ⟨repo, client1, table⟩ st k1 computer).store
        = (UpdateComputer ⟨repo, client2, table⟩ st k2 computer).store ∧
      (UpdateComputer ⟨repo, client1, table⟩ st k1 computer).calls
        = (UpdateComputer ⟨repo, client2, table⟩ st k2 computer).calls ∧
      (UpdateComputer ⟨repo, client1, table⟩ st k1 computer).dispatched
        = (UpdateComputer ⟨repo, client2, table⟩ st k2 computer).dispatched) :=
  ⟨CreateComputer_client_irrelevant repo table client1 client2 st k1 k2 computer,
    UpdateComputer_client_irrelevant repo table client1 client2 st k1 k2 computer⟩

/-- Witness of C15: the third computer of owner `abc`, with the HTTP client against an
endpoint that always answers 500 and with the mock client that accepts: the client returns
an error in one run and `nil` in the other, a line is printed in one run only, and the
mutation returns `nil` in both. -/
theorem mutation_result_independent_of_delivery_witness :
    ((httpNotificationClient testClient failingEnv).SendNotification []
        (limitNotification "abc" 3)).1 ≠ none ∧
    (mockClient.SendNotification newMockClient (limitNotification "abc" 3)).1 = none ∧
    (CreateComputer ⟨mockRepository, httpNotificationClient testClient failingEnv, caseTable⟩
      (stateAfter testService newMockRepository newMockClient
        [testComputer (some "abc"), testComputer (some "abc")]).1 []
      (testComputer (some "abc"))).printed ≠ [] ∧
    (CreateComputer ⟨mockRepository, httpNotificationClient testClient failingEnv, caseTable⟩
      (stateAfter testService newMockRepository newMockClient
        [testComputer (some "abc"), testComputer (some "abc")]).1 []
      (testComputer (some "abc"))).err
      = (CreateComputer ⟨mockRepository, mockClient, caseTable⟩
      (stateAfter testService newMockRepository newMockClient
        [testComputer (some "abc"), testComputer (some "abc")]).1 newMockClient
      (testComputer (some "abc"))).err :=
  ⟨by decide, by decide, by decide,
    (mutation_result_independent_of_delivery mockRepository caseTable
      (httpNotificationClient testClient failingEnv) mockClient
      (stateAfter testService newMockRepository newMockClient
        [testComputer (some "abc"), testComputer (some "abc")]).1 [] newMockClient
      (testComputer (some "abc"))).1.1⟩

theorem count_after_create {σ κ : Type} (s : computerService σ κ) (count : σ → String → Int)
    (abbr : String) (hne : abbr ≠ "")
    (hq : ∀ st a, s.repo.CountByEmployee st a = .ok (count st a))
    (hown : ∀ st c id st1, s.repo.Create st c = (.ok id, st1) →
      c.EmployeeAbbreviation = some abbr → 0 ≤ count st abbr →
      count st abbr < 9223372036854775807 → count st1 abbr = count st abbr + 1)
    (hother : ∀ st c id st1, s.repo.Create st c = (.ok id, st1) →
      c.EmployeeAbbreviation ≠ some abbr → count st1 abbr = count st abbr)
    (hfail : ∀ st c e st1, s.repo.Create st c = (.error e, st1) →
      count st1 abbr = count st abbr)
    (st : σ) (k : κ) (computer : Computer)
    (h0 : 0 ≤ count st abbr)
    (hmax : computer.EmployeeAbbreviation = some abbr →
      (CreateComputer s st k computer).err = none → count st abbr < 9223372036854775807) :
    count (CreateComputer s st k computer).store abbr
      = count st abbr + (if computer.EmployeeAbbreviation = some abbr ∧
          (CreateComputer s st k computer).err = none then 1 else 0) := by
  cases hv : validateComputer s computer with
  | some e =>
    rw [CreateComputer_invalid s st k computer e hv]
    simp
  | none =>
    by_cases ho : computer.EmployeeAbbreviation = none ∨ computer.EmployeeAbbreviation = some ""
    · obtain ⟨_, _, _, a4, _, _, _⟩ := CreateComputer_no_owner s st k computer hv ho
      have hno : computer.EmployeeAbbreviation ≠ some abbr := by
        rcases ho with h | h
        · rw [h]; exact fun hh => Option.noConfusion hh
        · rw [h]; exact fun hh => hne (Option.some.inj hh).symm
      rw [a4, if_neg (fun h => hno h.1)]
      rcases hc : s.repo.Create st computer with ⟨res, st1⟩
      cases res with
      | error e => simpa using hfail st computer e st1 hc
      | ok id => simpa using hother st computer id st1 hc hno
    · cases hab : computer.EmployeeAbbreviation with
      | none => exact absurd (Or.inl hab) ho
      | some owner =>
        have hne2 : owner ≠ "" := fun h => ho (Or.inr (by rw [hab, h]))
        rcases hc : s.repo.Create st computer with ⟨res, st1⟩
        cases res with
        | error e =>
          rw [CreateComputer_create_error s st st1 k computer owner (count st owner) e hv hab hne2
            (hq st owner) hc]
          simpa using hfail st computer e st1 hc
        | ok id =>
          obtain ⟨a1, a2, _, _, _⟩ := CreateComputer_created s st st1 k computer owner
            (count st owner) id hv hab hne2 (hq st owner) hc
          by_cases hsame : owner = abbr
          · subst hsame
            have hm := hmax hab a1
            rw [a1, a2]
            simpa [hab] using hown st computer id st1 hc hab h0 hm
          · have hno : computer.EmployeeAbbreviation ≠ some abbr := by
              rw [hab]; exact fun hh => hsame (Option.some.inj hh)
            have := hother st computer id st1 hc hno
            rw [a1, a2]
            simp [hsame, this]

/-- On a store that counts the computers created, the count of an owner after a list of
`CreateComputer` calls is its count before plus the calls made for it that returned `nil`. -/
theorem count_after_creations {σ κ : Type} (s : computerService σ κ) (count : σ → String → Int)
    (abbr : String) (hne : abbr ≠ "")
    (hq : ∀ st a, s.repo.CountByEmployee st a = .ok (count st a))
    (hown : ∀ st c id st1, s.repo.Create st c = (.ok id, st1) →
      c.EmployeeAbbreviation = some abbr → 0 ≤ count st abbr →
      count st abbr < 9223372036854775807 → count st1 abbr = count st abbr + 1)
    (hother : ∀ st c id st1, s.repo.Create st c = (.ok id, st1) →
      c.EmployeeAbbreviation ≠ some abbr → count st1 abbr = count st abbr)
    (hfail : ∀ st c e st1, s.repo.Create st c = (.error e, st1) →
      count st1 abbr = count st abbr) :
    ∀ (pre : List Computer) (st : σ) (k : κ), 0 ≤ count st abbr →
      count st abbr + (createdFor s abbr st k pre : Int) ≤ 9223372036854775807 →
      count (stateAfter s st k pre).1 abbr
        = count st abbr + (createdFor s abbr st k pre : Int) := by
  intro pre
  induction pre with
  | nil => intro st k _ _; simp [stateAfter, createdFor]
  | cons computer rest ih =>
    intro st k h0 hle
    simp only [stateAfter, createdFor] at hle ⊢
    by_cases hind : computer.EmployeeAbbreviation = some abbr ∧
        (CreateComputer s st k computer).err = none
    · rw [if_pos hind] at hle ⊢
      push_cast at hle ⊢
      have hstep := count_after_create s count abbr hne hq hown hother hfail st k computer h0
        (fun _ _ => by omega)
      rw [if_pos hind] at hstep
      rw [ih _ _ (by omega) (by omega), hstep]
      omega
    · rw [if_neg hind] at hle ⊢
      push_cast at hle ⊢
      have hstep := count_after_create s count abbr hne hq hown hother hfail st k computer h0
        (fun h1 h2 => absurd ⟨h1, h2⟩ hind)
      rw [if_neg hind] at hstep
      rw [ih _ _ (by omega) (by omega), hstep]
      omega

theorem mock_count_own (abbr : String) (m st1 : mockComputerRepository) (c : Computer)
    (id : Nat) (hc : mockRepository.Create m c = (.ok id, st1))
    (ho : c.EmployeeAbbreviation = some abbr) (h0 : 0 ≤ m.countMap abbr)
    (hmax : m.countMap abbr < 9223372036854775807) :
    st1.countMap abbr = m.countMap abbr + 1 := by
  have h2 := congrArg Prod.snd hc
  simp only [mockRepository, ho] at h2
  rw [← h2]
  simp only [if_true]
  exact wrapInt64_of_range _ (by omega)

theorem mock_count_other (abbr : String) (m st1 : mockComputerRepository) (c : Computer)
    (id : Nat) (hc : mockRepository.Create m c = (.ok id, st1))
    (ho : c.EmployeeAbbreviation ≠ some abbr) : st1.countMap abbr = m.countMap abbr := by
  have h2 := congrArg Prod.snd hc
  simp only [mockRepository] at h2
  rw [← h2]
  cases hab : c.EmployeeAbbreviation with
  | none => rfl
  | some owner =>
    have : abbr ≠ owner := fun h => ho (by rw [hab, h])
    simp [this]

theorem mock_create_ok (abbr : String) (m st1 : mockComputerRepository) (c : Computer)
    (e : GoError) (hc : mockRepository.Create m c = (.error e, st1)) :
    st1.countMap abbr = m.countMap abbr := by
  have h1 := congrArg Prod.fst hc
  simp [mockRepository] at h1

/-- C12: on a store that counts the computers created (its count query answers the count
of the owner, a successful `Create` for the owner adds one to it, nothing else changes it),
starting with count 0 for the owner, let `k` be the rank of a `CreateComputer` call among
those made for that owner that returned `nil`, after any list of earlier calls, with `k`
below `2^63`: when `k` is 1 or 2 the call dispatches nothing and does not call the
notification client, and when `k ≥ 3` it dispatches exactly one notification, with count
`k`, and hands it to the client, which is left in the state `SendNotification` leaves it in
on that notification, whether or not the owner was already notified before. -/
theorem kth_creation_notifies_from_third {σ κ : Type} (s : computerService σ κ)
    (count : σ → String → Int) (abbr : String) (st0 : σ) (k0 : κ) (pre : List Computer)
    (computer : Computer) (hne : abbr ≠ "")
    (hq : ∀ st a, s.repo.CountByEmployee st a = .ok (count st a))
    (hown : ∀ st c id st1, s.repo.Create st c = (.ok id, st1) →
      c.EmployeeAbbreviation = some abbr → 0 ≤ count st abbr →
      count st abbr < 9223372036854775807 → count st1 abbr = count st abbr + 1)
    (hother : ∀ st c id st1, s.repo.Create st c = (.ok id, st1) →
      c.EmployeeAbbreviation ≠ some abbr → count st1 abbr = count st abbr)
    (hfail : ∀ st c e st1, s.repo.Create st c = (.error e, st1) →
      count st1 abbr = count st abbr)
    (hfresh : count st0 abbr = 0)
    (howner : computer.EmployeeAbbreviation = some abbr)
    (hok : (CreateComputer s (stateAfter s st0 k0 pre).1 (stateAfter s st0 k0 pre).2
      computer).err = none)
    (hk : createdFor s abbr st0 k0 pre + 1 < 9223372036854775808) :
    (createdFor s abbr st0 k0 pre + 1 ≤ 2 →
      (CreateComputer s (stateAfter s st0 k0 pre).1 (stateAfter s st0 k0 pre).2
        computer).dispatched = [] ∧
      (CreateComputer s (stateAfter s st0 k0 pre).1 (stateAfter s st0 k0 pre).2
        computer).client = (stateAfter s st0 k0 pre).2) ∧
    (3 ≤ createdFor s abbr st0 k0 pre + 1 →
      (CreateComputer s (stateAfter s st0 k0 pre).1 (stateAfter s st0 k0 pre).2
        computer).dispatched
        = [{ Level := "warning", EmployeeAbbreviation := abbr,
             Message := "Employee " ++ abbr ++ " has been assigned "
               ++ toString ((createdFor s abbr st0 k0 pre + 1 : Nat) : Int) ++ " computers",
             Timestamp := "" }] ∧
      (CreateComputer s (stateAfter s st0 k0 pre).1 (stateAfter s st0 k0 pre).2
        computer).client
        = (s.notifyClient.SendNotification (stateAfter s st0 k0 pre).2
            { Level := "warning", EmployeeAbbreviation := abbr,
              Message := "Employee " ++ abbr ++ " has been assigned "
                ++ toString ((createdFor s abbr st0 k0 pre + 1 : Nat) : Int) ++ " computers",
              Timestamp := "" }).2) := by
  have hcount := count_after_creations s count abbr hne hq hown hother hfail pre st0 k0
    (by omega) (by omega)
  rw [hfresh, zero_add] at hcount
  cases hv : validateComputer s computer with
  | some e =>
    rw [CreateComputer_invalid s _ _ computer e hv] at hok
    cases hok
  | none =>
    rcases hc : s.repo.Create (stateAfter s st0 k0 pre).1 computer with ⟨res, st1⟩
    cases res with
    | error e =>
      rw [CreateComputer_create_error s _ st1 _ computer abbr _ e hv howner hne (hq _ _) hc]
        at hok
      cases hok
    | ok id =>
      obtain ⟨_, _, _, hd, hcl⟩ := CreateComputer_created s _ st1 (stateAfter s st0 k0 pre).2
        computer abbr _ id hv howner hne (hq _ _) hc
      rw [hcount, wrapInt64_of_range _ (by omega)] at hd hcl
      rw [hd, hcl]
      constructor
      · intro h2
        rw [if_neg (by omega), if_neg (by omega)]
        exact ⟨rfl, rfl⟩
      · intro h3
        rw [if_pos (by omega), if_pos (by omega)]
        simp only [limitNotification, Nat.cast_add, Nat.cast_one]
        exact ⟨trivial, trivial⟩

/-- Witness of C12: the third and the fourth computer of owner `abc` on the store of the
tests, a computer of owner `xyz` being created in between: the mock client holds the
notification with count 3 after the third, and those with counts 3 and 4 after the
fourth. -/
theorem kth_creation_notifies_from_third_witness :
    (CreateComputer testService
      (stateAfter testService newMockRepository newMockClient
        [numberedComputer 1 (some "abc"), numberedComputer 2 (some "xyz"),
          numberedComputer 3 (some "abc")]).1
      (stateAfter testService newMockRepository newMockClient
        [numberedComputer 1 (some "abc"), numberedComputer 2 (some "xyz"),
          numberedComputer 3 (some "abc")]).2
      (numberedComputer 4 (some "abc"))).client.notifications
      = [{ Level := "warning", EmployeeAbbreviation := "abc",
           Message := "Employee abc has been assigned 3 computers", Timestamp := "" }] ∧
    (CreateComputer testService
      (stateAfter testService newMockRepository newMockClient
        [numberedComputer 1 (some "abc"), numberedComputer 2 (some "xyz"),
          numberedComputer 3 (some "abc"), numberedComputer 4 (some "abc")]).1
      (stateAfter testService newMockRepository newMockClient
        [numberedComputer 1 (some "abc"), numberedComputer 2 (some "xyz"),
          numberedComputer 3 (some "abc"), numberedComputer 4 (some "abc")]).2
      (numberedComputer 5 (some "abc"))).client.notifications
      = [{ Level := "warning", EmployeeAbbreviation := "abc",
           Message := "Employee abc has been assigned 3 computers", Timestamp := "" },
         { Level := "warning", EmployeeAbbreviation := "abc",
           Message := "Employee abc has been assigned 4 computers", Timestamp := "" }] := by
  have h3 := ((kth_creation_notifies_from_third testService (fun m a => m.countMap a) "abc"
      newMockRepository newMockClient
      [numberedComputer 1 (some "abc"), numberedComputer 2 (some "xyz"),
        numberedComputer 3 (some "abc")]
      (numberedComputer 4 (some "abc")) (by decide) (fun _ _ => rfl)
      (fun m c id st1 => mock_count_own "abc" m st1 c id)
      (fun m c id st1 => mock_count_other "abc" m st1 c id)
      (fun m c e st1 => mock_create_ok "abc" m st1 c e)
      rfl rfl (by decide) (by decide)).2 (by decide)).2
  have h4 := ((kth_creation_notifies_from_third testService (fun m a => m.countMap a) "abc"
      newMockRepository newMockClient
      [numberedComputer 1 (some "abc"), numberedComputer 2 (some "xyz"),
        numberedComputer 3 (some "abc"), numberedComputer 4 (some "abc")]
      (numberedComputer 5 (some "abc")) (by decide) (fun _ _ => rfl)
      (fun m c id st1 => mock_count_own "abc" m st1 c id)
      (fun m c id st1 => mock_count_other "abc" m st1 c id)
      (fun m c e st1 => mock_create_ok "abc" m st1 c e)
      rfl rfl (by decide) (by decide)).2 (by decide)).2
  rw [h3, h4]
  exact ⟨rfl, rfl⟩

end services

namespace handlers
open models notifications services

theorem wrap_Error_ne (msg : String) (cause : GoError) :
    (GoError.wrap msg cause).Error ≠ msg := by
  intro h
  have := congrArg String.length h
  simp only [GoError.Error, String.length_append] at this
  have h2 : ": ".length = 2 := by decide
  omega

/-- Whatever the store, a PUT for a computer the repository does not find is answered with
400 and a DELETE with 500: the error of the service is `computer not found: <cause>`, which
the handlers compare with `computer not found`. -/
theorem missing_computer_status {σ κ : Type} (h : ComputerHandler σ κ) (st : σ) (k : κ)
    (idStr : String) (id : Nat) (decoded : Computer) (cause : GoError)
    (hparse : ParseUint32 idStr = some id) (hid : id ≠ 0)
    (hget : h.service.repo.GetByID st id = .error cause) :
    (UpdateComputer h st k idStr (some decoded)).1.statusCode = 400 ∧
    (DeleteComputer h st k idStr).1.statusCode = 500 := by
  constructor
  · have hu := services.UpdateComputer_missing h.service st k { decoded with ID := id } cause
      hid hget
    simp only [UpdateComputer, hparse, hu, wrap_Error_ne, if_false]
  · have hd : services.DeleteComputer h.service st k id
        = { err := some (.wrap "computer not found" cause), store := st,
            calls := [.GetByID id], dispatched := [], printed := [], client := k } := by
      simp [services.DeleteComputer, hid, hget]
    simp only [DeleteComputer, hparse, hd, wrap_Error_ne, if_false]

/-- C18: on the store of the tests, which holds no computer 999, a PUT /computers/999 with
a valid body is answered with status 400 and a DELETE /computers/999 with status 500,
neither with 404; the error the service returns reads `computer not found: computer not
found`, not `computer not found`. -/
theorem missing_computer_not_reported_as_404 :
    (UpdateComputer ⟨testService⟩ newMockRepository newMockClient "999"
      (some (testComputer (some "abc")))).1
      = { statusCode := 400, payload := .error "computer not found: computer not found" } ∧
    (DeleteComputer ⟨testService⟩ newMockRepository newMockClient "999").1
      = { statusCode := 500, payload := .error "Failed to delete computer" } ∧
    newMockRepository.computers 999 = none := by
  decide

end handlers
